import Mathlib

/-!
Verification development for the ComputerSpecLogic ETL pipeline
(backend/etl: compatibility_tagger.py, normalizer.py, schema_mapper.py,
algolia_loader.py).

Python values are shallowly embedded by the inductive type `JValue`.
A Python `float` is modelled by the exact rational value of the decimal
literal it was written as (`JValue.float`), with the non-finite floats
`nan` and `±inf` as separate constructors; `str()` of a float is modelled
as the exact decimal rendering.  Python `dict`s used as records are
modelled as association lists in insertion order (`Record`), matching
Python's guaranteed dict iteration order.  Functions that can raise a
Python exception are embedded returning `Option`/`Except`, with `none` /
`.error` standing for any raised exception.
-/

mutual

/-- Model of a Python value as it occurs in the ETL records. -/
inductive JValue where
  | null
  | bool (b : Bool)
  | int (n : Int)
  | float (q : ℚ)
  | nan
  | inf (neg : Bool)
  | str (s : String)
  | list (xs : JList)
  | dict (fs : JFields)
deriving DecidableEq, Repr

/-- A Python list value (spine made explicit so that recursion over
nested values stays structural). -/
inductive JList where
  | nil
  | cons (v : JValue) (rest : JList)
deriving DecidableEq, Repr

/-- A Python dict value nested inside another value. -/
inductive JFields where
  | nil
  | cons (k : String) (v : JValue) (rest : JFields)
deriving DecidableEq, Repr

end

/-- A top-level Python dict (a record / DataFrame row), in insertion
order, with distinct keys. -/
abbrev Record := List (String × JValue)

/-- View a `JList` as a Lean list. -/
def JList.toList : JList → List JValue
  | .nil => []
  | .cons v rest => v :: rest.toList

/-- Build a `JList` from a Lean list. -/
def JList.ofList : List JValue → JList
  | [] => .nil
  | v :: rest => .cons v (JList.ofList rest)

/-- View a nested dict as a `Record`. -/
def JFields.toList : JFields → Record
  | .nil => []
  | .cons k v rest => (k, v) :: rest.toList

/-- Python `dict.get(k)` with default `None`. -/
def jget (r : Record) (k : String) : JValue := (r.lookup k).getD .null

/-- Python `dict.get(k, d)` with an explicit default. -/
def jgetD (r : Record) (k : String) (d : JValue) : JValue := (r.lookup k).getD d

/-- Python truthiness (`bool(v)`) of a value.  `nan` and the infinities
are truthy; `0`, `0.0`, `""`, `[]` and empty dicts are falsy. -/
def truthy : JValue → Bool
  | .null => false
  | .bool b => b
  | .int n => n != 0
  | .float q => q != 0
  | .nan => true
  | .inf _ => true
  | .str s => s != ""
  | .list xs => xs != .nil
  | .dict fs => fs != .nil

/-- Python number for comparison purposes: a finite value, an infinity,
or `nan` (which compares false against everything). -/
inductive PyNum where
  | fin (q : ℚ)
  | pinf
  | ninf
  | nan
deriving DecidableEq, Repr

/-- Numeric view of a value, as used by Python's comparison operators
(`bool` counts as `0`/`1`); `none` when a comparison with a number would
raise `TypeError`. -/
def toNum : JValue → Option PyNum
  | .int n => some (.fin n)
  | .float q => some (.fin q)
  | .nan => some .nan
  | .inf b => some (if b then .ninf else .pinf)
  | .bool b => some (.fin (if b then 1 else 0))
  | _ => none

/-- Python `<=` on numbers, including the IEEE rules for `nan` and the
infinities. -/
def numLe : PyNum → PyNum → Bool
  | .nan, _ => false
  | _, .nan => false
  | .ninf, _ => true
  | _, .pinf => true
  | .pinf, _ => false
  | _, .ninf => false
  | .fin a, .fin b => decide (a ≤ b)

/-- Python `==` between a value and a number (cross-type numeric equality;
non-numeric values compare unequal without raising). -/
def numEqV (v : JValue) (q : ℚ) : Bool :=
  match toNum v with
  | some (.fin a) => decide (a = q)
  | _ => false

/-- Lower-case a string (Python `str.lower`, ASCII behaviour). -/
def pyLower (s : String) : String := ⟨s.data.map Char.toLower⟩

/-- Upper-case a string (Python `str.upper`, ASCII behaviour). -/
def pyUpper (s : String) : String := ⟨s.data.map Char.toUpper⟩

/-- Substring test helper over character lists. -/
def subAux (ns : List Char) : List Char → Bool
  | [] => ns.isEmpty
  | h :: rest => ns.isPrefixOf (h :: rest) || subAux ns rest

/-- Python `t in s` substring containment. -/
def containsSub (s t : String) : Bool := subAux t.data s.data

/-- Characters matched by the regex class `\s` (Python whitespace). -/
def isWS (c : Char) : Bool := c = ' ' || c = '\t' || c = '\n' || c = '\r' || c = '\x0b' || c = '\x0c'

/-- Characters matched by the regex class `[-\s]`. -/
def isHypWS (c : Char) : Bool := isWS c || c = '-'

/-- Match `a`, then a run of class characters, then `b`, at the head of
`cs` (models the regex fragment `a⟨cls⟩*b` anchored at one position; in
the patterns embedded below `b` never starts with a class character, so
greedy matching is exact). -/
def dropPref : List Char → List Char → Option (List Char)
  | cs, [] => some cs
  | [], _ :: _ => none
  | c :: cs, p :: ps => if c = p then dropPref cs ps else none

/-- Match the sequence `a ⟨cls⟩* b` starting exactly at `cs`. -/
def seqHere (cls : Char → Bool) (a b : List Char) (cs : List Char) : Bool :=
  match dropPref cs a with
  | none => false
  | some rest => (dropPref (rest.dropWhile cls) b).isSome

/-- Search for `a ⟨cls⟩* b` anywhere in `cs` (models `re.search`). -/
def seqSearch (cls : Char → Bool) (a b : List Char) : List Char → Bool
  | [] => seqHere cls a b []
  | c :: cs => seqHere cls a b (c :: cs) || seqSearch cls a b cs

/-- Search for the regex `a\s*b` in `s`. -/
def hasSeqWS (s : String) (a b : String) : Bool :=
  seqSearch isWS a.data b.data s.data

/-- Search for the regex `a[-\s]*b` in `s`. -/
def hasSeqHW (s : String) (a b : String) : Bool :=
  seqSearch isHypWS a.data b.data s.data

/-- Python `str.strip()` (trim surrounding whitespace). -/
def pyStrip (s : String) : String :=
  ⟨(s.data.dropWhile isWS).reverse.dropWhile isWS |>.reverse⟩

/-- Python `str.replace(old, new)` for single-character `old` removed or
replaced by a single character. -/
def strRemoveChar (s : String) (c : Char) : String :=
  ⟨s.data.filter (fun d => d ≠ c)⟩

/-- Replace every occurrence of character `c` by `d`. -/
def strMapChar (s : String) (c d : Char) : String :=
  ⟨s.data.map (fun e => if e = c then d else e)⟩

/-- Decimal rendering of the rational value of a Python float, as
produced by `str()` on a float written as a decimal literal (e.g.
`str(65.5) = "65.5"`, `str(5.0) = "5.0"`). -/
def ratRepr (q : ℚ) : String :=
  if q.den = 1 then toString q.num ++ ".0"
  else
    match (List.range 400).find? (fun k => (10 ^ k) % q.den = 0) with
    | some k =>
      let m : Int := q.num * ((10 ^ k : Nat) : Int) / (q.den : Int)
      let sign := if m < 0 then "-" else ""
      let a := m.natAbs
      let ip := a / 10 ^ k
      let fp := a % 10 ^ k
      let fs := toString fp
      let fs := String.mk (List.replicate (k - fs.length) '0') ++ fs
      sign ++ toString ip ++ "." ++ fs
    | none => toString q.num ++ "/" ++ toString q.den

/-- A single ASCII apostrophe, used by Python `repr` of strings. -/
def quoteChar : String := String.singleton (Char.ofNat 39)

mutual

/-- Python `repr()` of a value (string escaping simplified to plain
quoting). -/
def pyRepr : JValue → String
  | .null => "None"
  | .bool b => if b then "True" else "False"
  | .int n => toString n
  | .float q => ratRepr q
  | .nan => "nan"
  | .inf b => if b then "-inf" else "inf"
  | .str s => quoteChar ++ s ++ quoteChar
  | .list xs => "[" ++ String.intercalate ", " (pyReprL xs) ++ "]"
  | .dict fs => "\x7b" ++ String.intercalate ", " (pyReprF fs) ++ "\x7d"

/-- Item reprs of a Python list. -/
def pyReprL : JList → List String
  | .nil => []
  | .cons v rest => pyRepr v :: pyReprL rest

/-- Item reprs of a Python dict. -/
def pyReprF : JFields → List String
  | .nil => []
  | .cons k v rest => (quoteChar ++ k ++ quoteChar ++ ": " ++ pyRepr v) :: pyReprF rest

end

/-- Python `str()` of a value. -/
def pyStrV : JValue → String
  | .str s => s
  | v => pyRepr v

example : pyStrV (.float (mkRat 131 2)) = "65.5" := by decide
example : pyStrV (.float 5) = "5.0" := by decide
example : pyStrV (.list (.cons (.int 65) .nil)) = "[65]" := by decide

/-! ## Compatibility tagger (backend/etl/transformers/compatibility_tagger.py)

Each `_generate_*_tags` method builds a `tags` list by a sequence of
independent blocks and returns `list(set(tags))`.  Each block is embedded
as a `seg_*` function returning `Option (List JValue)` (`none` = the block
raises); the generator concatenates the blocks in source order and
deduplicates.  `list(set(...))` is modelled as `List.dedup` (first
occurrence kept); the claims proved below only concern membership and
duplicate-freeness, which are order-independent. -/

/-- Ranges `TDP_CATEGORIES` of `CompatibilityTagger` (watts). -/
def TDP_CATEGORIES : List (String × PyNum × PyNum) :=
  [("low-tdp", .fin 0, .fin 65), ("mid-tdp", .fin 66, .fin 125),
   ("high-tdp", .fin 126, .fin 200), ("extreme-tdp", .fin 201, .pinf)]

/-- Ranges `VRAM_TIERS` of `CompatibilityTagger` (GB). -/
def VRAM_TIERS : List (String × PyNum × PyNum) :=
  [("vram-4gb", .fin 0, .fin 4), ("vram-8gb", .fin 5, .fin 8),
   ("vram-12gb", .fin 9, .fin 12), ("vram-16gb", .fin 13, .fin 16),
   ("vram-24gb", .fin 17, .fin 24), ("vram-32gb-plus", .fin 25, .pinf)]

/-- Ranges `GPU_LENGTH_CATEGORIES` of `CompatibilityTagger` (mm). -/
def GPU_LENGTH_CATEGORIES : List (String × PyNum × PyNum) :=
  [("compact-gpu", .fin 0, .fin 250), ("standard-gpu", .fin 251, .fin 310),
   ("long-gpu", .fin 311, .fin 350), ("extra-long-gpu", .fin 351, .pinf)]

/-- Ranges `COOLER_HEIGHT_CATEGORIES` of `CompatibilityTagger` (mm). -/
def COOLER_HEIGHT_CATEGORIES : List (String × PyNum × PyNum) :=
  [("low-profile", .fin 0, .fin 70), ("mid-height", .fin 71, .fin 130),
   ("tower-cooler", .fin 131, .fin 165), ("tall-tower", .fin 166, .pinf)]

/-- Ranges `CASE_GPU_CLEARANCE` of `CompatibilityTagger` (mm). -/
def CASE_GPU_CLEARANCE : List (String × PyNum × PyNum) :=
  [("compact-clearance", .fin 0, .fin 280), ("standard-clearance", .fin 281, .fin 330),
   ("extended-clearance", .fin 331, .fin 380), ("full-clearance", .fin 381, .pinf)]

/-- Ranges `PSU_WATTAGE_TIERS` of `CompatibilityTagger` (W). -/
def PSU_WATTAGE_TIERS : List (String × PyNum × PyNum) :=
  [("psu-450w", .fin 0, .fin 500), ("psu-550w", .fin 501, .fin 600),
   ("psu-650w", .fin 601, .fin 700), ("psu-750w", .fin 701, .fin 800),
   ("psu-850w", .fin 801, .fin 900), ("psu-1000w", .fin 901, .fin 1100),
   ("psu-1200w-plus", .fin 1101, .pinf)]

/-- The common loop of the `_get_*_category`/`_get_*_tier` helpers:
first range whose bounds contain the value wins, else the fallback. -/
def bucket_lookup : List (String × PyNum × PyNum) → String → PyNum → String
  | [], fallback, _ => fallback
  | (tag, lo, hi) :: rest, fallback, v =>
    if numLe lo v && numLe v hi then tag else bucket_lookup rest fallback v

/-- Method `_get_tdp_category`. -/
def get_tdp_category (tdp : PyNum) : String := bucket_lookup TDP_CATEGORIES "extreme-tdp" tdp

/-- Method `_get_vram_tier`. -/
def get_vram_tier (v : PyNum) : String := bucket_lookup VRAM_TIERS "vram-32gb-plus" v

/-- Method `_get_gpu_length_category`. -/
def get_gpu_length_category (v : PyNum) : String := bucket_lookup GPU_LENGTH_CATEGORIES "extra-long-gpu" v

/-- Method `_get_cooler_height_category`. -/
def get_cooler_height_category (v : PyNum) : String := bucket_lookup COOLER_HEIGHT_CATEGORIES "tall-tower" v

/-- Method `_get_case_gpu_clearance`. -/
def get_case_gpu_clearance (v : PyNum) : String := bucket_lookup CASE_GPU_CLEARANCE "full-clearance" v

/-- Method `_get_psu_wattage_tier`. -/
def get_psu_wattage_tier (v : PyNum) : String := bucket_lookup PSU_WATTAGE_TIERS "psu-1200w-plus" v

/-- Python `v.lower()`: defined only on strings (`AttributeError`
otherwise). -/
def lowerV : JValue → Option String
  | .str s => some (pyLower s)
  | _ => none

/-- Extract a string value (an `AttributeError`/`TypeError` path when the
source calls a string method on it otherwise). -/
def strOf : JValue → Option String
  | .str s => some s
  | _ => none

/-- Python `a or b` (short-circuit on truthiness). -/
def pyOr (a b : JValue) : JValue := if truthy a then a else b

/-- Iterating `for x in v` after the `isinstance(v, str)` wrap: a string
becomes a one-element list, a list iterates its items, a dict iterates
its keys; other values raise `TypeError`. -/
def iterItems : JValue → Option (List JValue)
  | .str s => some [.str s]
  | .list xs => some xs.toList
  | .dict fs => some (fs.toList.map (fun p => JValue.str p.1))
  | _ => none

/-- Block `if x: tags.append(x.lower())` for field `key` (used for
sockets, chipset, single memory types, PSU form factor). -/
def seg_lower_field (r : Record) (key : String) : Option (List JValue) :=
  let v := jget r key
  if truthy v then (lowerV v).map (fun s => [JValue.str s]) else some []

/-- Loop appending `mem_type.lower()` for each truthy item. -/
def lowerEach : List JValue → Option (List JValue)
  | [] => some []
  | v :: rest =>
    if truthy v then do
      let s ← lowerV v
      let l ← lowerEach rest
      pure (JValue.str s :: l)
    else lowerEach rest

/-- Block for `memory_type` lists (CPU / motherboard): default `[]`,
string wrapped into a singleton, each truthy item lower-cased. -/
def seg_lower_items (r : Record) (key : String) : Option (List JValue) := do
  let items ← iterItems (jgetD r key (.list .nil))
  lowerEach items

/-- Block for `pcie_version`: appends `f"pcie{pcie}".lower().replace(".", "")`. -/
def seg_pcie (r : Record) : Option (List JValue) :=
  let v := jget r "pcie_version"
  if truthy v then
    some [JValue.str (strRemoveChar (pyLower ("pcie" ++ pyStrV v)) '.')]
  else some []

/-- CPU TDP block: `tdp_watts or max_tdp_watts`, then the TDP category. -/
def seg_cpu_tdp (r : Record) : Option (List JValue) :=
  let t := pyOr (jget r "tdp_watts") (jget r "max_tdp_watts")
  if truthy t then (toNum t).map (fun n => [JValue.str (get_tdp_category n)]) else some []

/-- CPU integrated-graphics block (always appends one tag). -/
def seg_igpu (r : Record) : Option (List JValue) :=
  some [JValue.str (if truthy (jget r "integrated_graphics") then "igpu" else "no-igpu")]

/-- CPU core-count block. -/
def seg_cores (r : Record) : Option (List JValue) :=
  let c := jget r "cores"
  if truthy c then
    (toNum c).map (fun n =>
      [JValue.str (if numLe n (.fin 4) then "quad-core"
        else if numLe n (.fin 8) then "octa-core"
        else if numLe n (.fin 16) then "high-core-count"
        else "extreme-core-count")])
  else some []

/-- Performance-tier block: appends the raw field value when truthy. -/
def seg_tier (r : Record) : Option (List JValue) :=
  let v := jget r "performance_tier"
  if truthy v then some [v] else some []

/-- An unhashable value makes `set(tags)` raise `TypeError`. -/
def isUnhashable : JValue → Bool
  | .list _ => true
  | .dict _ => true
  | _ => false

/-- Model of the final `list(set(tags))`. -/
def finishTags (l : List JValue) : Option (List JValue) :=
  if l.any isUnhashable then none else some l.dedup

/-- Sequence a list of blocks: all succeed and concatenate in order,
or the first raised exception aborts the method. -/
def optionAll : List (Option (List JValue)) → Option (List JValue)
  | [] => some []
  | o :: rest => o.bind (fun l => (optionAll rest).map (fun ls => l ++ ls))

/-- Method `_generate_cpu_tags`. -/
def generate_cpu_tags (cpu : Record) : Option (List JValue) :=
  (optionAll [seg_lower_field cpu "socket", seg_lower_items cpu "memory_type",
    seg_pcie cpu, seg_cpu_tdp cpu, seg_igpu cpu, seg_cores cpu,
    seg_tier cpu]).bind finishTags

/-- GPU TDP block: the TDP category plus high/extreme power warnings. -/
def seg_gpu_tdp (r : Record) : Option (List JValue) :=
  let t := jget r "tdp_watts"
  if truthy t then
    (toNum t).map (fun n =>
      [JValue.str (get_tdp_category n)]
      ++ (if numLe (.fin 300) n then [JValue.str "high-power-gpu"] else [])
      ++ (if numLe (.fin 400) n then [JValue.str "extreme-power-gpu"] else []))
  else some []

/-- GPU VRAM-tier block. -/
def seg_vram (r : Record) : Option (List JValue) :=
  let v := jget r "vram_gb"
  if truthy v then (toNum v).map (fun n => [JValue.str (get_vram_tier n)]) else some []

/-- GPU length block. -/
def seg_length (r : Record) : Option (List JValue) :=
  let v := jget r "length_mm"
  if truthy v then (toNum v).map (fun n => [JValue.str (get_gpu_length_category n)]) else some []

/-- GPU brand/model block (`nvidia`/`rtx`/`gtx`/`amd`/`rdna` tags from
substring tests on the lower-cased brand and model strings). -/
def seg_gpu_brand (r : Record) : Option (List JValue) := do
  let b ← strOf (jgetD r "brand" (.str ""))
  let m ← strOf (jgetD r "model" (.str ""))
  let brand := pyLower b
  let model := pyLower m
  pure (if containsSub brand "nvidia" || containsSub model "geforce" then
      [JValue.str "nvidia"]
      ++ (if containsSub model "rtx" then [JValue.str "rtx", JValue.str "ray-tracing"] else [])
      ++ (if containsSub model "gtx" then [JValue.str "gtx"] else [])
    else if containsSub brand "amd" || containsSub model "radeon" then
      [JValue.str "amd"] ++ (if containsSub model "rx" then [JValue.str "rdna"] else [])
    else [])

/-- Method `_generate_gpu_tags`. -/
def generate_gpu_tags (gpu : Record) : Option (List JValue) :=
  (optionAll [seg_gpu_tdp gpu, seg_vram gpu, seg_length gpu, seg_pcie gpu,
    seg_lower_field gpu "memory_type", seg_gpu_brand gpu,
    seg_tier gpu]).bind finishTags

/-- Motherboard form-factor block: `form_factor.lower().replace(" ", "-")`. -/
def seg_form_factor (r : Record) : Option (List JValue) :=
  let v := jget r "form_factor"
  if truthy v then (strOf v).map (fun s => [JValue.str (strMapChar (pyLower s) ' ' '-')]) else some []

/-- Motherboard M.2-slot block (`m2_slots` defaults to 0). -/
def seg_m2 (r : Record) : Option (List JValue) :=
  (toNum (jgetD r "m2_slots" (.int 0))).map (fun n =>
    if numLe (.fin 4) n then [JValue.str "many-m2"]
    else if numLe (.fin 2) n then [JValue.str "multi-m2"] else [])

/-- Motherboard DIMM block (`memory_slots` defaults to 0, always one tag). -/
def seg_dimm (r : Record) : Option (List JValue) :=
  (toNum (jgetD r "memory_slots" (.int 0))).map (fun n =>
    [JValue.str (if numLe (.fin 4) n then "4-dimm" else "2-dimm")])

/-- Block `if x: tags.append("wifi")`-style for a fixed tag. -/
def seg_flag (r : Record) (key tag : String) : Option (List JValue) :=
  some (if truthy (jget r key) then [JValue.str tag] else [])

/-- Method `_generate_motherboard_tags`. -/
def generate_motherboard_tags (mobo : Record) : Option (List JValue) :=
  (optionAll [seg_lower_field mobo "socket", seg_lower_items mobo "memory_type",
    seg_form_factor mobo, seg_lower_field mobo "chipset",
    seg_flag mobo "wifi" "wifi", seg_m2 mobo, seg_dimm mobo,
    seg_tier mobo]).bind finishTags

/-- RAM speed block: the speed tier depends on the (raw) memory type. -/
def seg_ram_speed (r : Record) : Option (List JValue) :=
  let mt := jget r "memory_type"
  let speed := jget r "speed_mhz"
  if truthy speed then
    if truthy mt then do
      let s ← strOf mt
      let ml := pyLower s
      if containsSub ml "ddr5" then do
        let n ← toNum speed
        pure [JValue.str (if numLe (.fin 6400) n then "high-speed-ddr5"
          else if numLe (.fin 5600) n then "mid-speed-ddr5" else "standard-ddr5")]
      else if containsSub ml "ddr4" then do
        let n ← toNum speed
        pure [JValue.str (if numLe (.fin 3600) n then "high-speed-ddr4"
          else if numLe (.fin 3200) n then "mid-speed-ddr4" else "standard-ddr4")]
      else pure []
    else pure []
  else pure []

/-- Python `*` on numbers (IEEE rules for `nan` and infinities).  The
source multiplies `capacity_gb * modules`; non-numeric operands (where
Python sequence repetition could produce a value that the following
`>=` comparison would reject with `TypeError`) are modelled as failure
at the call site. -/
def numMul : PyNum → PyNum → PyNum
  | .nan, _ => .nan
  | _, .nan => .nan
  | .fin a, .fin b => .fin (a * b)
  | .pinf, .fin b => if 0 < b then .pinf else if b < 0 then .ninf else .nan
  | .ninf, .fin b => if 0 < b then .ninf else if b < 0 then .pinf else .nan
  | .fin a, .pinf => if 0 < a then .pinf else if a < 0 then .ninf else .nan
  | .fin a, .ninf => if 0 < a then .ninf else if a < 0 then .pinf else .nan
  | .pinf, .pinf => .pinf
  | .pinf, .ninf => .ninf
  | .ninf, .pinf => .ninf
  | .ninf, .ninf => .pinf

/-- RAM total-capacity block (`capacity_gb` defaults to 0, `modules` to 1). -/
def seg_ram_capacity (r : Record) : Option (List JValue) := do
  let capacity := jgetD r "capacity_gb" (.int 0)
  let modules := jgetD r "modules" (.int 1)
  let total ← if truthy capacity then do
      let a ← toNum capacity
      let b ← toNum modules
      pure (numMul a b)
    else pure (PyNum.fin 0)
  pure (if numLe (.fin 64) total then [JValue.str "64gb-plus"]
    else if numLe (.fin 32) total then [JValue.str "32gb"]
    else if numLe (.fin 16) total then [JValue.str "16gb"]
    else [JValue.str "8gb-or-less"])

/-- RAM kit-configuration block (`modules == 2` / `modules == 4`). -/
def seg_ram_kit (r : Record) : Option (List JValue) :=
  let modules := jgetD r "modules" (.int 1)
  some (if numEqV modules 2 then [JValue.str "dual-channel"]
    else if numEqV modules 4 then [JValue.str "quad-channel"] else [])

/-- RAM CAS-latency block. -/
def seg_cas (r : Record) : Option (List JValue) :=
  let v := jget r "cas_latency"
  if truthy v then
    (toNum v).map (fun n => [JValue.str (if numLe n (.fin 16) then "low-latency"
      else if numLe n (.fin 22) then "mid-latency" else "high-latency")])
  else some []

/-- Method `_generate_ram_tags`. -/
def generate_ram_tags (ram : Record) : Option (List JValue) :=
  (optionAll [seg_lower_field ram "memory_type", seg_ram_speed ram,
    seg_ram_capacity ram, seg_ram_kit ram, seg_flag ram "rgb" "rgb",
    seg_cas ram]).bind finishTags

/-- PSU wattage-tier block. -/
def seg_wattage (r : Record) : Option (List JValue) :=
  let v := jget r "wattage"
  if truthy v then (toNum v).map (fun n => [JValue.str (get_psu_wattage_tier n)]) else some []

/-- PSU efficiency-rating block. -/
def seg_psu_eff (r : Record) : Option (List JValue) :=
  let v := jgetD r "efficiency_rating" (.str "")
  if truthy v then (strOf v).map (fun s =>
    let e := pyLower s
    if containsSub e "titanium" then [JValue.str "80plus-titanium"]
    else if containsSub e "platinum" then [JValue.str "80plus-platinum"]
    else if containsSub e "gold" then [JValue.str "80plus-gold"]
    else if containsSub e "silver" then [JValue.str "80plus-silver"]
    else if containsSub e "bronze" then [JValue.str "80plus-bronze"]
    else if containsSub e "80" || containsSub e "plus" then [JValue.str "80plus"]
    else [])
  else some []

/-- PSU modularity block. -/
def seg_psu_modular (r : Record) : Option (List JValue) :=
  let v := jgetD r "modular" (.str "")
  if truthy v then (strOf v).map (fun s =>
    let m := pyLower s
    if containsSub m "full" then [JValue.str "full-modular"]
    else if containsSub m "semi" then [JValue.str "semi-modular"]
    else [JValue.str "non-modular"])
  else some []

/-- Method `_generate_psu_tags`. -/
def generate_psu_tags (psu : Record) : Option (List JValue) :=
  (optionAll [seg_wattage psu, seg_psu_eff psu, seg_psu_modular psu,
    seg_lower_field psu "form_factor"]).bind finishTags

/-- Loop appending `f"supports-{ff.lower().replace(' ', '-')}"`. -/
def supportsFFEach : List JValue → Option (List JValue)
  | [] => some []
  | v :: rest =>
    if truthy v then do
      let s ← strOf v
      let l ← supportsFFEach rest
      pure (JValue.str ("supports-" ++ strMapChar (pyLower s) ' ' '-') :: l)
    else supportsFFEach rest

/-- Case form-factor-support block. -/
def seg_case_ff (r : Record) : Option (List JValue) := do
  let items ← iterItems (jgetD r "form_factor_support" (.list .nil))
  supportsFFEach items

/-- Case GPU-clearance block. -/
def seg_case_gpu (r : Record) : Option (List JValue) :=
  let v := jget r "max_gpu_length_mm"
  if truthy v then (toNum v).map (fun n => [JValue.str (get_case_gpu_clearance n)]) else some []

/-- Case cooler-clearance block. -/
def seg_case_cooler (r : Record) : Option (List JValue) :=
  let v := jget r "max_cooler_height_mm"
  if truthy v then
    (toNum v).map (fun n => [JValue.str (if numLe (.fin 170) n then "tall-cooler-support"
      else if numLe (.fin 155) n then "tower-cooler-support"
      else if numLe (.fin 120) n then "mid-cooler-support" else "low-profile-only")])
  else some []

/-- Loop appending `f"rad-{rad.lower()}"`. -/
def radEach : List JValue → Option (List JValue)
  | [] => some []
  | v :: rest =>
    if truthy v then do
      let s ← lowerV v
      let l ← radEach rest
      pure (JValue.str ("rad-" ++ s) :: l)
    else radEach rest

/-- Case radiator-support block. -/
def seg_case_rad (r : Record) : Option (List JValue) := do
  let items ← iterItems (jgetD r "radiator_support" (.list .nil))
  radEach items

/-- Case drive-bay block (`or` short-circuits, so the second comparison
is only evaluated when the first is false). -/
def seg_case_bays (r : Record) : Option (List JValue) := do
  let n35 ← toNum (jgetD r "drive_bays_35" (.int 0))
  if numLe (.fin 4) n35 then pure [JValue.str "many-drive-bays"]
  else do
    let n25 ← toNum (jgetD r "drive_bays_25" (.int 0))
    pure (if numLe (.fin 4) n25 then [JValue.str "many-drive-bays"] else [])

/-- Method `_generate_case_tags`. -/
def generate_case_tags (case_ : Record) : Option (List JValue) :=
  (optionAll [seg_case_ff case_, seg_case_gpu case_, seg_case_cooler case_,
    seg_case_rad case_, seg_case_bays case_]).bind finishTags

/-- Loop appending `f"supports-{socket.lower()}"`. -/
def supportsEach : List JValue → Option (List JValue)
  | [] => some []
  | v :: rest =>
    if truthy v then do
      let s ← lowerV v
      let l ← supportsEach rest
      pure (JValue.str ("supports-" ++ s) :: l)
    else supportsEach rest

/-- Cooler socket-support block. -/
def seg_cooler_sockets (r : Record) : Option (List JValue) := do
  let items ← iterItems (jgetD r "socket_support" (.list .nil))
  supportsEach items

/-- Cooler type block (`aio`/`liquid`/`water` substrings). -/
def seg_cooler_type (r : Record) : Option (List JValue) :=
  let v := jgetD r "cooler_type" (.str "")
  if truthy v then (strOf v).map (fun s =>
    let t := pyLower s
    if containsSub t "aio" || containsSub t "liquid" || containsSub t "water" then
      [JValue.str "aio", JValue.str "liquid-cooling"]
    else [JValue.str "air-cooling"])
  else some []

/-- Cooler height block. -/
def seg_cooler_height (r : Record) : Option (List JValue) :=
  let v := jget r "height_mm"
  if truthy v then (toNum v).map (fun n => [JValue.str (get_cooler_height_category n)]) else some []

/-- Cooler radiator-size block: `f"{rad_size}mm-rad"`. -/
def seg_cooler_rad (r : Record) : Option (List JValue) :=
  let v := jget r "radiator_size_mm"
  some (if truthy v then [JValue.str (pyStrV v ++ "mm-rad")] else [])

/-- Cooler TDP-rating block. -/
def seg_cooler_tdp (r : Record) : Option (List JValue) :=
  let v := jget r "tdp_rating"
  if truthy v then
    (toNum v).map (fun n => [JValue.str (if numLe (.fin 250) n then "high-tdp-cooling"
      else if numLe (.fin 150) n then "mid-tdp-cooling" else "low-tdp-cooling")])
  else some []

/-- Method `_generate_cooler_tags`. -/
def generate_cooler_tags (cooler : Record) : Option (List JValue) :=
  (optionAll [seg_cooler_sockets cooler, seg_cooler_type cooler,
    seg_cooler_height cooler, seg_cooler_rad cooler, seg_cooler_tdp cooler,
    seg_flag cooler "rgb" "rgb"]).bind finishTags

/-- The `tag_generators` dispatch table of `generate_tags`; unknown
types yield an empty list (with a logged warning). -/
def dispatch_tags (component : Record) : String → Option (List JValue)
  | "CPU" => generate_cpu_tags component
  | "GPU" => generate_gpu_tags component
  | "MOTHERBOARD" => generate_motherboard_tags component
  | "RAM" => generate_ram_tags component
  | "PSU" => generate_psu_tags component
  | "CASE" => generate_case_tags component
  | "COOLER" => generate_cooler_tags component
  | _ => some []

/-- Method `generate_tags`: upper-case the component type (default `""`)
and dispatch. -/
def generate_tags (component : Record) : Option (List JValue) :=
  (strOf (jgetD component "component_type" (.str ""))).bind
    (fun cts => dispatch_tags component (pyUpper cts))

/-! ## Data normalizer (backend/etl/transformers/normalizer.py)

The regex tables are embedded pattern by pattern.  Every pattern in the
source is (case-insensitively) of one of three shapes, each of which is
embedded exactly: a fully anchored literal `^lit$` (equality of the
lower-cased string), a plain literal searched with `re.search` (substring
containment), or `a\s*b` / `a[-\s]*b` (two literals separated by an
optional run of class characters, `hasSeqWS` / `hasSeqHW`).  Optional
trailing parts that can match the empty string (such as the `[-\s]*\d*`
suffix of the memory-type patterns) impose no constraint under
`re.search` and are dropped. -/

/-- Table `SOCKET_MAPPINGS`: one boolean matcher per regex, applied to
the lower-cased stripped value, in source order. -/
def SOCKET_MAPPINGS : List ((String → Bool) × String) :=
  [ (fun s => s = "am5" || hasSeqWS s "socket" "am5" || hasSeqWS s "amd" "am5", "AM5"),
    (fun s => s = "am4" || hasSeqWS s "socket" "am4" || hasSeqWS s "amd" "am4", "AM4"),
    (fun s => s = "str5" || hasSeqWS s "socket" "str5" || containsSub s "strx4", "sTRX4"),
    (fun s => s = "sp5" || hasSeqWS s "socket" "sp5", "SP5"),
    (fun s => hasSeqWS s "lga" "1700" || containsSub s "lga1700" || hasSeqWS s "intel" "1700", "LGA1700"),
    (fun s => hasSeqWS s "lga" "1851" || containsSub s "lga1851" || hasSeqWS s "intel" "1851", "LGA1851"),
    (fun s => hasSeqWS s "lga" "1200" || containsSub s "lga1200" || hasSeqWS s "intel" "1200", "LGA1200"),
    (fun s => hasSeqWS s "lga" "1151" || containsSub s "lga1151", "LGA1151"),
    (fun s => hasSeqWS s "lga" "2066" || containsSub s "lga2066", "LGA2066"),
    (fun s => hasSeqWS s "lga" "4677" || containsSub s "lga4677", "LGA4677") ]

/-- First pattern of a matcher table that fires on the lower-cased
input wins (Python dict iteration is insertion order). -/
def match_table (tbl : List ((String → Bool) × String)) (s : String) : Option String :=
  match tbl with
  | [] => none
  | (m, canonical) :: rest => if m (pyLower s) then some canonical else match_table rest s

/-- Method `normalize_socket` on the stripped string value. -/
def normalize_socket_str (value_str : String) : String :=
  match match_table SOCKET_MAPPINGS value_str with
  | some c => c
  | none => strRemoveChar (pyUpper value_str) ' '

/-- Method `normalize_socket` (`None`/`NaN` pass through as null). -/
def normalize_socket : JValue → JValue
  | .null => .null
  | .nan => .null
  | v => .str (normalize_socket_str (pyStrip (pyStrV v)))

/-- Table `MEMORY_TYPE_MAPPINGS`: each regex `(?i)stem…` is searched
with `re.search` and its optional suffix (`[-\s]*\d*` or nothing) can
match the empty string, so a pattern fires exactly when its stem occurs
(case-insensitively) as a substring.  Source order preserved. -/
def MEMORY_TYPE_MAPPINGS : List (String × String) :=
  [("ddr5", "DDR5"), ("ddr4", "DDR4"), ("ddr3", "DDR3"),
   ("gddr6x", "GDDR6X"), ("gddr6", "GDDR6"), ("gddr5x", "GDDR5X"), ("gddr5", "GDDR5"),
   ("hbm3", "HBM3"), ("hbm2e", "HBM2e"), ("hbm2", "HBM2")]

/-- Method `normalize_memory_type` on the stripped string value. -/
def normalize_memory_type_str (value_str : String) : String :=
  match MEMORY_TYPE_MAPPINGS.find? (fun p => containsSub (pyLower value_str) p.1) with
  | some p => p.2
  | none => pyUpper value_str

/-- Method `normalize_memory_type`. -/
def normalize_memory_type : JValue → JValue
  | .null => .null
  | .nan => .null
  | v => .str (normalize_memory_type_str (pyStrip (pyStrV v)))

/-- Table `FORM_FACTOR_MAPPINGS` as boolean matchers, source order. -/
def FORM_FACTOR_MAPPINGS : List ((String → Bool) × String) :=
  [ (fun s => s = "atx" || hasSeqWS s "full" "atx", "ATX"),
    (fun s => hasSeqHW s "micro" "atx" || containsSub s "matx" || containsSub s "m-atx", "Micro-ATX"),
    (fun s => hasSeqHW s "mini" "itx" || containsSub s "itx", "Mini-ITX"),
    (fun s => hasSeqHW s "e" "atx" || hasSeqWS s "extended" "atx", "E-ATX"),
    (fun s => hasSeqHW s "sfx" "l", "SFX-L"),
    (fun s => s = "sfx", "SFX") ]

/-- Method `normalize_form_factor` on the stripped string value
(unmatched input is returned unchanged). -/
def normalize_form_factor_str (value_str : String) : String :=
  match match_table FORM_FACTOR_MAPPINGS value_str with
  | some c => c
  | none => value_str

/-- Method `normalize_form_factor`. -/
def normalize_form_factor : JValue → JValue
  | .null => .null
  | .nan => .null
  | v => .str (normalize_form_factor_str (pyStrip (pyStrV v)))

/-- Numeric value of a run of decimal digits. -/
def natOfDigits (ds : List Char) : Nat := ds.foldl (fun a c => a * 10 + (c.toNat - 48)) 0

/-- First `\d+` run found by `re.search`, as a natural number. -/
def firstNum : List Char → Option Nat
  | [] => none
  | c :: cs =>
    if c.isDigit then some (natOfDigits ((c :: cs).takeWhile Char.isDigit))
    else firstNum cs

/-- Truncation of a rational toward zero (Python `int(float)`). -/
def ratTrunc (q : ℚ) : Int :=
  let n := q.num.natAbs / q.den
  if q.num < 0 then -(n : Int) else (n : Int)

/-- Method `normalize_tdp`: numeric input is truncated to int; string
input is parsed via the first `(\d+(?:\.\d+)?)` match (whose truncation
is its integer part); unparseable input yields null.  `int(float)` on an
infinity raises `OverflowError`, modelled as the failure case. -/
def normalize_tdp : JValue → Option Int
  | .null => none
  | .nan => none
  | .int n => some n
  | .float q => some (ratTrunc q)
  | .bool b => some (if b then 1 else 0)
  | .inf _ => none
  | v => (firstNum (pyStrip (pyStrV v)).data).map Int.ofNat

/-- Python `re.sub(r"[^\d.]", "", s)`. -/
def stripNonNumDot (s : String) : String := ⟨s.data.filter (fun c => c.isDigit || c = '.')⟩

/-- Python `float()` of a string made only of digits and dots. -/
def parseFloat (cs : List Char) : Option ℚ :=
  if cs.isEmpty then none
  else if cs.count '.' = 0 then some ((natOfDigits cs : ℚ))
  else if cs.count '.' = 1 then
    let a := cs.takeWhile (fun c => c ≠ '.')
    let b := (cs.dropWhile (fun c => c ≠ '.')).drop 1
    if a.isEmpty && b.isEmpty then none
    else some (mkRat (natOfDigits (a ++ b)) (10 ^ b.length))
  else none

/-- Method `normalize_price`: numeric input becomes a float; string
input is parsed after removing every character other than digits and
dots; failure yields null. -/
def normalize_price : JValue → Option PyNum
  | .null => none
  | .nan => none
  | .int n => some (.fin n)
  | .float q => some (.fin q)
  | .bool b => some (.fin (if b then 1 else 0))
  | .inf b => some (if b then .ninf else .pinf)
  | v => (parseFloat (stripNonNumDot (pyStrip (pyStrV v))).data).map PyNum.fin

/-- Python `<` on numbers. -/
def numLt : PyNum → PyNum → Bool
  | .nan, _ => false
  | _, .nan => false
  | .pinf, _ => false
  | _, .ninf => false
  | .ninf, _ => true
  | _, .pinf => true
  | .fin a, .fin b => decide (a < b)

/-- Division of a rational by 1000 (spelled out with `mkRat`). -/
def divThousand (q : ℚ) : ℚ := mkRat q.num (q.den * 1000)

/-- First `(\d+(?:\.\d+)?)` match: its rational value and the characters
after it. -/
def firstNumQ : List Char → Option (ℚ × List Char)
  | [] => none
  | c :: cs =>
    if c.isDigit then
      let ds := (c :: cs).takeWhile Char.isDigit
      let rest := (c :: cs).dropWhile Char.isDigit
      match rest with
      | '.' :: r2 =>
        if (match r2 with | d :: _ => d.isDigit | [] => false) then
          let fs := r2.takeWhile Char.isDigit
          some (mkRat (natOfDigits (ds ++ fs)) (10 ^ fs.length), r2.dropWhile Char.isDigit)
        else some ((natOfDigits ds : ℚ), rest)
      | _ => some ((natOfDigits ds : ℚ), rest)
    else firstNumQ cs

/-- String branch of `normalize_clock_speed`: regex
`(\d+(?:\.\d+)?)\s*(ghz|mhz)?` on the stripped lower-cased string,
`mhz` divides by 1000, missing unit defaults to GHz. -/
def normalize_clock_str (s : String) : Option PyNum :=
  match firstNumQ s.data with
  | none => none
  | some (q, rest) =>
    if "mhz".data.isPrefixOf (rest.dropWhile isWS) then some (.fin (divThousand q))
    else some (.fin q)

/-- Method `normalize_clock_speed`: numeric input above 100 is taken as
MHz and divided by 1000, otherwise as GHz. -/
def normalize_clock_speed : JValue → Option PyNum
  | .null => none
  | .nan => none
  | .int n => if numLt (.fin 100) (.fin n) then some (.fin (mkRat n 1000)) else some (.fin n)
  | .float q => if numLt (.fin 100) (.fin q) then some (.fin (divThousand q)) else some (.fin q)
  | .bool b => some (.fin (if b then 1 else 0))
  | .inf b => if b then some .ninf else some .pinf
  | v => normalize_clock_str (pyLower (pyStrip (pyStrV v)))

/-- Rows of `TIER_THRESHOLDS["CPU"]`: (tier, max_price, max_tdp). -/
def CPU_TIERS : List (String × PyNum × PyNum) :=
  [("budget", .fin 150, .fin 65), ("mid-range", .fin 350, .fin 105),
   ("high-end", .fin 550, .fin 170), ("enthusiast", .pinf, .pinf)]

/-- Rows of `TIER_THRESHOLDS["GPU"]`. -/
def GPU_TIERS : List (String × PyNum × PyNum) :=
  [("budget", .fin 250, .fin 150), ("mid-range", .fin 500, .fin 250),
   ("high-end", .fin 900, .fin 350), ("enthusiast", .pinf, .pinf)]

/-- Rows of `TIER_THRESHOLDS["Motherboard"]` (no `max_tdp` key, so the
`limits.get("max_tdp", inf)` default applies). -/
def MOBO_TIERS : List (String × PyNum × PyNum) :=
  [("budget", .fin 150, .pinf), ("mid-range", .fin 300, .pinf),
   ("high-end", .fin 500, .pinf), ("enthusiast", .pinf, .pinf)]

/-- Table `TIER_THRESHOLDS`. -/
def TIER_THRESHOLDS : List (String × List (String × PyNum × PyNum)) :=
  [("CPU", CPU_TIERS), ("GPU", GPU_TIERS), ("Motherboard", MOBO_TIERS)]

/-- Loop body of `derive_performance_tier`: `price is None or
price <= max_price`, same for TDP; comparing a non-numeric value raises
`TypeError`. -/
def tier_loop (tbl : List (String × PyNum × PyNum)) (price tdp : JValue) : Except String String :=
  match tbl with
  | [] => .ok "enthusiast"
  | (tier, maxP, maxT) :: rest => do
    let pok ← match price with
      | .null => Except.ok true
      | p => match toNum p with
        | some n => Except.ok (numLe n maxP)
        | none => Except.error "TypeError: price comparison"
    let tok ← match tdp with
      | .null => Except.ok true
      | t => match toNum t with
        | some n => Except.ok (numLe n maxT)
        | none => Except.error "TypeError: tdp comparison"
    if pok && tok then pure tier else tier_loop rest price tdp

/-- Method `derive_performance_tier` (unknown component types default to
mid-range; an unhashable component type would make the dict lookup
raise). -/
def derive_performance_tier (ctype price tdp : JValue) : Except String String :=
  match ctype with
  | .str s =>
    match TIER_THRESHOLDS.lookup s with
    | some tbl => tier_loop tbl price tdp
    | none => .ok "mid-range"
  | .list _ => .error "TypeError: unhashable type"
  | .dict _ => .error "TypeError: unhashable type"
  | _ => .ok "mid-range"

/-- Collapse every run of `[-\s]` characters into a single hyphen
(`re.sub(r"[-\s]+", "-", ...)`); the flag records whether the previous
character belonged to a run. -/
def collapseRuns : List Char → Bool → List Char
  | [], _ => []
  | c :: cs, inRun =>
    if isHypWS c then (if inRun then collapseRuns cs true else '-' :: collapseRuns cs true)
    else c :: collapseRuns cs false

/-- Inner `slugify` of `generate_object_id`: lower-case, strip, drop
characters outside `[\w\s-]`, collapse `[-\s]+` runs to hyphens. -/
def slugify (text : JValue) : String :=
  let t := pyStrip (pyLower (pyStrV text))
  ⟨collapseRuns (t.data.filter (fun c => c.isAlphanum || c = '_' || isWS c || c = '-')) false⟩

/-- Method `generate_object_id`. -/
def generate_object_id (ct brand model : JValue) : String :=
  slugify ct ++ "-" ++ slugify brand ++ "-" ++ slugify model

/-- A pandas DataFrame: named columns of aligned values. -/
structure DFrame where
  cols : List (String × List JValue)
deriving DecidableEq, Repr

/-- Python `col in df.columns`. -/
def DFrame.hasCol (df : DFrame) (k : String) : Bool := (df.cols.lookup k).isSome

/-- Column indexing `df[k]`; raises `KeyError` when absent. -/
def dfGet (df : DFrame) (k : String) : Except String (List JValue) :=
  match df.cols.lookup k with
  | some c => .ok c
  | none => .error ("KeyError: " ++ k)

/-- Column assignment `df[k] = c` (replaces in place or appends). -/
def setCol : List (String × List JValue) → String → List JValue → List (String × List JValue)
  | [], k, c => [(k, c)]
  | (k0, c0) :: rest, k, c => if k0 = k then (k, c) :: rest else (k0, c0) :: setCol rest k c

/-- Column assignment on a DataFrame. -/
def dfSet (df : DFrame) (k : String) (c : List JValue) : DFrame := ⟨setCol df.cols k c⟩

/-- The guarded `if col in df.columns: df[col] = df[col].apply(f)` steps. -/
def mapIf (df : DFrame) (k : String) (f : JValue → JValue) : DFrame :=
  match df.cols.lookup k with
  | some c => dfSet df k (c.map f)
  | none => df

/-- Value-level `normalize_tdp` as used by `.apply` (null for failure). -/
def normalize_tdp_v (v : JValue) : JValue :=
  match normalize_tdp v with
  | some n => .int n
  | none => .null

/-- Back from `PyNum` to a Python float value. -/
def pyNumToV : PyNum → JValue
  | .fin q => .float q
  | .pinf => .inf false
  | .ninf => .inf true
  | .nan => .nan

/-- Value-level `normalize_price` as used by `.apply`. -/
def normalize_price_v (v : JValue) : JValue :=
  match normalize_price v with
  | some n => pyNumToV n
  | none => .null

/-- Value-level `normalize_clock_speed` as used by `.apply`. -/
def normalize_clock_v (v : JValue) : JValue :=
  match normalize_clock_speed v with
  | some n => pyNumToV n
  | none => .null

/-- One iteration of the TDP-column loop of `normalize_dataframe`.  The
source reads `df["tdp_watts" if col == "tdp" else col]`, so when a
`"tdp"` column is present the values are read from the `"tdp_watts"`
column — a `KeyError` when that column does not exist. -/
def tdp_step (df : DFrame) (col : String) : Except String DFrame :=
  if df.hasCol col then do
    let src ← dfGet df (if col = "tdp" then "tdp_watts" else col)
    pure (dfSet df col (src.map normalize_tdp_v))
  else pure df

/-- Rows of a DataFrame as records (`row.to_dict()` per index). -/
def dfRows (df : DFrame) : List Record :=
  let n := match df.cols with
    | [] => 0
    | c :: _ => c.2.length
  (List.range n).map (fun i => df.cols.filterMap (fun c => (c.2.get? i).map (fun v => (c.1, v))))

/-- The objectID-generation step of `normalize_dataframe`. -/
def objectid_step (df : DFrame) : Except String DFrame :=
  let hasMN := df.hasCol "model" || df.hasCol "name"
  if !df.hasCol "objectID" && df.hasCol "component_type" && df.hasCol "brand" && hasMN then do
    let col ← (dfRows df).mapM (fun row => do
      let ct ← match row.lookup "component_type" with
        | some v => Except.ok v
        | none => Except.error "KeyError: component_type"
      pure (JValue.str (generate_object_id ct (jgetD row "brand" (.str "unknown"))
        (jgetD row "model" (jgetD row "name" (.str "unknown"))))))
    pure (dfSet df "objectID" col)
  else pure df

/-- The model-from-name aliasing step of `normalize_dataframe`. -/
def model_alias_step (df : DFrame) : DFrame :=
  if !df.hasCol "model" then
    match df.cols.lookup "name" with
    | some c => dfSet df "model" c
    | none => df
  else df

/-- The performance-tier derivation step of `normalize_dataframe`. -/
def tier_step (df : DFrame) : Except String DFrame :=
  if df.hasCol "performance_tier" then pure df
  else do
    let col ← (dfRows df).mapM (fun row => do
      let t ← derive_performance_tier (jgetD row "component_type" (.str ""))
        (pyOr (jget row "price_usd") (jget row "price"))
        (pyOr (jget row "tdp_watts") (jget row "tdp"))
      pure (JValue.str t))
    pure (dfSet df "performance_tier" col)

/-- Method `normalize_dataframe`: the full sequence of column
normalizations, raising (as `.error`) exactly where the pandas code
would raise. -/
def normalize_dataframe (df : DFrame) : Except String DFrame := do
  let df := mapIf df "socket" normalize_socket
  let df := mapIf df "memory_type" normalize_memory_type
  let df := mapIf df "form_factor" normalize_form_factor
  let df ← tdp_step df "tdp"
  let df ← tdp_step df "tdp_watts"
  let df ← tdp_step df "max_tdp_watts"
  let df := mapIf df "price" normalize_price_v
  let df := mapIf df "price_usd" normalize_price_v
  let df := mapIf df "msrp" normalize_price_v
  let df := mapIf df "base_clock" normalize_clock_v
  let df := mapIf df "boost_clock" normalize_clock_v
  let df := mapIf df "base_clock_ghz" normalize_clock_v
  let df := mapIf df "boost_clock_ghz" normalize_clock_v
  let df ← objectid_step df
  let df := model_alias_step df
  tier_step df

/-! ## Schema mapper (backend/etl/transformers/schema_mapper.py) -/

/-- Table `FIELD_MAPPINGS` of `SchemaMapper` (alias → canonical name). -/
def FIELD_MAPPINGS : List (String × String) :=
  [("name", "model"), ("tdp", "tdp_watts"), ("price", "price_usd"),
   ("msrp", "price_usd"), ("vram", "vram_gb"), ("memory_size", "vram_gb"),
   ("base_clock", "base_clock_ghz"), ("boost_clock", "boost_clock_ghz"),
   ("length", "length_mm"), ("height", "height_mm"), ("type", "cooler_type")]

/-- Python `FIELD_MAPPINGS.get(key, key)`. -/
def fieldMap (k : String) : String := (FIELD_MAPPINGS.lookup k).getD k

/-- Python dict assignment `d[k] = v` (replaces in place, else appends). -/
def dictSetPy : Record → String → JValue → Record
  | [], k, v => [(k, v)]
  | (k0, v0) :: rest, k, v =>
    if k0 = k then (k, v) :: rest else (k0, v0) :: dictSetPy rest k v

/-- The loop of `_apply_field_mappings`: each entry is written to its
mapped key unless that key is already present with a non-null value. -/
def afmLoop : Record → Record → Record
  | [], acc => acc
  | (key, value) :: rest, acc =>
    let mk_ := fieldMap key
    afmLoop rest
      (if (acc.lookup mk_).isNone || acc.lookup mk_ = some .null
       then dictSetPy acc mk_ value else acc)

/-- Method `_apply_field_mappings`. -/
def apply_field_mappings (record : Record) : Record := afmLoop record []

/-- The target types of the schema field specs. -/
inductive FType where
  | tstr
  | tint
  | tfloat
  | tbool
  | tlist
deriving DecidableEq, Repr

/-- One schema field spec: type, required flag, optional default. -/
structure FieldSpec where
  ftype : FType
  required : Bool
  dflt : Option JValue
deriving DecidableEq, Repr

/-- Required field without default. -/
def req (t : FType) : FieldSpec := ⟨t, true, none⟩

/-- Optional field without default. -/
def opt (t : FType) : FieldSpec := ⟨t, false, none⟩

/-- Required field with default. -/
def reqD (t : FType) (d : JValue) : FieldSpec := ⟨t, true, some d⟩

/-- Optional field with default. -/
def optD (t : FType) (d : JValue) : FieldSpec := ⟨t, false, some d⟩

/-- Schema `CPU_SCHEMA` (field order as in the source dict). -/
def CPU_SCHEMA : List (String × FieldSpec) :=
  [("objectID", req .tstr), ("component_type", reqD .tstr (.str "CPU")),
   ("brand", req .tstr), ("model", req .tstr), ("socket", req .tstr),
   ("tdp_watts", req .tint), ("max_tdp_watts", opt .tint),
   ("cores", req .tint), ("threads", req .tint),
   ("base_clock_ghz", opt .tfloat), ("boost_clock_ghz", opt .tfloat),
   ("memory_type", req .tlist), ("pcie_version", opt .tstr),
   ("integrated_graphics", optD .tbool (.bool false)),
   ("price_usd", req .tfloat), ("release_date", opt .tstr),
   ("performance_tier", req .tstr), ("image_url", opt .tstr),
   ("compatibility_tags", req .tlist)]

/-- Schema `GPU_SCHEMA`. -/
def GPU_SCHEMA : List (String × FieldSpec) :=
  [("objectID", req .tstr), ("component_type", reqD .tstr (.str "GPU")),
   ("brand", req .tstr), ("model", req .tstr), ("length_mm", req .tint),
   ("tdp_watts", req .tint), ("vram_gb", req .tint),
   ("memory_type", opt .tstr), ("memory_bandwidth_gbps", opt .tfloat),
   ("pcie_version", opt .tstr), ("power_connectors", opt .tstr),
   ("recommended_psu_watts", opt .tint), ("price_usd", req .tfloat),
   ("release_date", opt .tstr), ("performance_tier", req .tstr),
   ("image_url", opt .tstr), ("compatibility_tags", req .tlist)]

/-- Schema `MOTHERBOARD_SCHEMA`. -/
def MOTHERBOARD_SCHEMA : List (String × FieldSpec) :=
  [("objectID", req .tstr), ("component_type", reqD .tstr (.str "Motherboard")),
   ("brand", req .tstr), ("model", req .tstr), ("socket", req .tstr),
   ("chipset", opt .tstr), ("form_factor", req .tstr),
   ("memory_type", req .tlist), ("memory_slots", optD .tint (.int 4)),
   ("max_memory_gb", optD .tint (.int 128)), ("m2_slots", optD .tint (.int 1)),
   ("wifi", optD .tbool (.bool false)), ("price_usd", req .tfloat),
   ("performance_tier", req .tstr), ("image_url", opt .tstr),
   ("compatibility_tags", req .tlist)]

/-- Schema `RAM_SCHEMA`. -/
def RAM_SCHEMA : List (String × FieldSpec) :=
  [("objectID", req .tstr), ("component_type", reqD .tstr (.str "RAM")),
   ("brand", req .tstr), ("model", req .tstr), ("memory_type", req .tstr),
   ("speed_mhz", req .tint), ("capacity_gb", req .tint),
   ("modules", optD .tint (.int 2)), ("cas_latency", opt .tint),
   ("voltage", opt .tfloat), ("rgb", optD .tbool (.bool false)),
   ("price_usd", req .tfloat), ("performance_tier", req .tstr),
   ("image_url", opt .tstr), ("compatibility_tags", req .tlist)]

/-- Schema `PSU_SCHEMA`. -/
def PSU_SCHEMA : List (String × FieldSpec) :=
  [("objectID", req .tstr), ("component_type", reqD .tstr (.str "PSU")),
   ("brand", req .tstr), ("model", req .tstr), ("wattage", req .tint),
   ("efficiency_rating", opt .tstr), ("modular", opt .tstr),
   ("form_factor", optD .tstr (.str "ATX")), ("price_usd", req .tfloat),
   ("performance_tier", req .tstr), ("image_url", opt .tstr),
   ("compatibility_tags", req .tlist)]

/-- Schema `CASE_SCHEMA`. -/
def CASE_SCHEMA : List (String × FieldSpec) :=
  [("objectID", req .tstr), ("component_type", reqD .tstr (.str "Case")),
   ("brand", req .tstr), ("model", req .tstr),
   ("form_factor_support", req .tlist), ("max_gpu_length_mm", req .tint),
   ("max_cooler_height_mm", req .tint), ("max_psu_length_mm", opt .tint),
   ("drive_bays_35", optD .tint (.int 2)), ("drive_bays_25", optD .tint (.int 2)),
   ("radiator_support", opt .tlist), ("price_usd", req .tfloat),
   ("performance_tier", req .tstr), ("image_url", opt .tstr),
   ("compatibility_tags", req .tlist)]

/-- Schema `COOLER_SCHEMA`. -/
def COOLER_SCHEMA : List (String × FieldSpec) :=
  [("objectID", req .tstr), ("component_type", reqD .tstr (.str "Cooler")),
   ("brand", req .tstr), ("model", req .tstr), ("cooler_type", req .tstr),
   ("socket_support", req .tlist), ("height_mm", req .tint),
   ("radiator_size_mm", opt .tint), ("tdp_rating", opt .tint),
   ("rgb", optD .tbool (.bool false)), ("price_usd", req .tfloat),
   ("performance_tier", req .tstr), ("image_url", opt .tstr),
   ("compatibility_tags", req .tlist)]

/-- Table `SCHEMAS`. -/
def SCHEMAS : List (String × List (String × FieldSpec)) :=
  [("CPU", CPU_SCHEMA), ("GPU", GPU_SCHEMA), ("Motherboard", MOTHERBOARD_SCHEMA),
   ("RAM", RAM_SCHEMA), ("PSU", PSU_SCHEMA), ("Case", CASE_SCHEMA),
   ("Cooler", COOLER_SCHEMA)]

/-- First `(\d+\.?\d*)` match of the float-coercion regex, as a rational
(the dot may have no digits after it). -/
def firstNumF : List Char → Option ℚ
  | [] => none
  | c :: cs =>
    if c.isDigit then
      let ds := (c :: cs).takeWhile Char.isDigit
      match (c :: cs).dropWhile Char.isDigit with
      | '.' :: r2 =>
        let fs := r2.takeWhile Char.isDigit
        some (mkRat (natOfDigits (ds ++ fs)) (10 ^ fs.length))
      | _ => some ((natOfDigits ds : ℚ))
    else firstNumF cs

/-- Method `_coerce_type`; `none` models an exception from the coercion
(the source catches `ValueError`/`TypeError`; the `OverflowError` from
`int()` of an infinity, which the source does not catch, is also
modelled as the failure case). -/
def coerce_type (v : JValue) : FType → Option JValue
  | .tstr => some (.str (pyStrV v))
  | .tint =>
    match v with
    | .str s =>
      match firstNum s.data with
      | some n => some (.int n)
      | none => none
    | .int n => some (.int n)
    | .float q => some (.int (ratTrunc q))
    | .bool b => some (.int (if b then 1 else 0))
    | _ => none
  | .tfloat =>
    match v with
    | .str s =>
      match firstNumF s.data with
      | some q => some (.float q)
      | none => none
    | .int n => some (.float n)
    | .float q => some (.float q)
    | .bool b => some (.float (if b then 1 else 0))
    | .nan => some .nan
    | .inf b => some (.inf b)
    | _ => none
  | .tbool =>
    match v with
    | .bool b => some (.bool b)
    | .str s => some (.bool (decide (pyLower s ∈ ["true", "yes", "1", "y"])))
    | v => some (.bool (truthy v))
  | .tlist =>
    match v with
    | .list xs => some (.list xs)
    | .str s =>
      if containsSub s "," then
        some (.list (JList.ofList ((s.splitOn ",").map (fun p => JValue.str (pyStrip p)))))
      else some (.list (.cons (.str s) .nil))
    | v => some (.list (.cons v .nil))

/-- Outcome of mapping one schema field. -/
inductive FieldStep where
  | reject
  | skip
  | put (v : JValue)
deriving DecidableEq, Repr

/-- One iteration of the schema loop of `map_record`: missing/NaN values
take the default if any, else reject when required, else skip; coercion
failure rejects when required, else skips. -/
def field_step (raw : JValue) (spec : FieldSpec) : FieldStep :=
  if raw = .null || raw = .nan then
    match spec.dflt with
    | some d =>
      match coerce_type d spec.ftype with
      | some cv => .put cv
      | none => if spec.required then .reject else .skip
    | none => if spec.required then .reject else .skip
  else
    match coerce_type raw spec.ftype with
    | some cv => .put cv
    | none => if spec.required then .reject else .skip

/-- The schema loop of `map_record` over the remaining fields. -/
def mapFields (record : Record) : List (String × FieldSpec) → Record → Option Record
  | [], mapped => some mapped
  | (name, spec) :: rest, mapped =>
    match field_step (jget record name) spec with
    | .reject => none
    | .skip => mapFields record rest mapped
    | .put v => mapFields record rest (mapped ++ [(name, v)])

/-- Method `map_record`: alias the field names, then map each schema
field; `none` both for unknown component types and for rejected
records. -/
def map_record (record : Record) (component_type : String) : Option Record :=
  match SCHEMAS.lookup component_type with
  | none => none
  | some schema => mapFields (apply_field_mappings record) schema []

/-! ## Algolia loader (backend/etl/loaders/algolia_loader.py)

Only the pure data transformations are embedded: how `upload_records`
splits the input into batches and what payload `_upload_batch_with_retry`
passes to `client.save_objects` on each attempt.  The network call
itself is outside the model. -/

/-- Constant `BATCH_SIZE` of `AlgoliaLoader`. -/
def BATCH_SIZE : Nat := 1000

/-- Constant `MAX_RETRIES` of `AlgoliaLoader`. -/
def MAX_RETRIES : Nat := 3

/-- A NaN or infinite float (`isinstance(value, float) and (math.isnan(value)
or math.isinf(value))`). -/
def isBadFloat : JValue → Bool
  | .nan => true
  | .inf _ => true
  | _ => false

mutual

/-- Per-key dispatch of `_sanitize_record`: NaN/Inf floats become null,
dict values are sanitized recursively, list values item-wise. -/
def sanitize_value : JValue → JValue
  | .nan => .null
  | .inf _ => .null
  | .dict fs => .dict (sanitize_fields fs)
  | .list xs => .list (sanitize_items xs)
  | v => v

/-- The list comprehension of `_sanitize_record`: dict items are
sanitized recursively, NaN/Inf floats become null, everything else
(including nested lists) is kept as is. -/
def sanitize_items : JList → JList
  | .nil => .nil
  | .cons (.dict fs) r => .cons (.dict (sanitize_fields fs)) (sanitize_items r)
  | .cons .nan r => .cons .null (sanitize_items r)
  | .cons (.inf _) r => .cons .null (sanitize_items r)
  | .cons v r => .cons v (sanitize_items r)

/-- Recursive call of `_sanitize_record` on a nested dict. -/
def sanitize_fields : JFields → JFields
  | .nil => .nil
  | .cons k v rest => .cons k (sanitize_value v) (sanitize_fields rest)

end

/-- Method `_sanitize_record` on a top-level record. -/
def sanitize_record : Record → Record
  | [] => []
  | (k, v) :: rest => (k, sanitize_value v) :: sanitize_record rest

/-- The batch slices taken by `upload_records`: `records[i:i+BATCH_SIZE]`
for `i in range(0, len(records), BATCH_SIZE)` (after the early return
for an empty input). -/
def upload_batches (records : List Record) : List (List Record) :=
  if records.isEmpty then []
  else
    (List.range ((records.length + BATCH_SIZE - 1) / BATCH_SIZE)).map
      (fun b => (records.drop (BATCH_SIZE * b)).take BATCH_SIZE)

/-- The payload `_upload_batch_with_retry` passes to `save_objects` on
each of its `MAX_RETRIES` attempts: the batch is sanitized once, before
the retry loop, so every attempt sends the sanitized batch. -/
def attempt_payloads (batch : List Record) : List (List Record) :=
  List.replicate MAX_RETRIES (batch.map sanitize_record)

/-! ## Theorems about the claims -/

/-- C6: `_get_tdp_category` maps the exact boundary values as declared:
65 → low-tdp, 66 → mid-tdp, 125 → mid-tdp, 126 → high-tdp. -/
theorem c6_tdp_boundary_values :
    get_tdp_category (.fin 65) = "low-tdp" ∧
    get_tdp_category (.fin 66) = "mid-tdp" ∧
    get_tdp_category (.fin 125) = "mid-tdp" ∧
    get_tdp_category (.fin 126) = "high-tdp" := by
  decide

/-- C1 counterexample: on the GPU record of the scenario the length
336 mm falls in the declared `long-gpu` range (311–350), so the tag list
does not include `extra-long-gpu` as the claim states. -/
theorem c1_counterexample :
    ∃ tags, generate_tags [("component_type", .str "GPU"), ("tdp_watts", .int 450),
        ("vram_gb", .int 24), ("length_mm", .int 336)] = some tags ∧
      JValue.str "extra-long-gpu" ∉ tags :=
  ⟨[.str "extreme-tdp", .str "high-power-gpu", .str "extreme-power-gpu",
    .str "vram-24gb", .str "long-gpu"], by decide, by decide⟩

/-- C1 (amended): on the GPU record of the scenario, `generate_tags`
returns a tag list including `extreme-tdp`, `extreme-power-gpu`,
`high-power-gpu`, `vram-24gb` and `long-gpu` (336 mm is in the 311–350
`long-gpu` range, not `extra-long-gpu`). -/
theorem c1_gpu_power_warning_tags :
    ∃ tags, generate_tags [("component_type", .str "GPU"), ("tdp_watts", .int 450),
        ("vram_gb", .int 24), ("length_mm", .int 336)] = some tags ∧
      JValue.str "extreme-tdp" ∈ tags ∧ JValue.str "extreme-power-gpu" ∈ tags ∧
      JValue.str "high-power-gpu" ∈ tags ∧ JValue.str "vram-24gb" ∈ tags ∧
      JValue.str "long-gpu" ∈ tags :=
  ⟨[.str "extreme-tdp", .str "high-power-gpu", .str "extreme-power-gpu",
    .str "vram-24gb", .str "long-gpu"], by decide, by decide, by decide,
    by decide, by decide, by decide⟩

/-- C2: on a DataFrame that has a `tdp` column but no `tdp_watts`
column, the TDP loop of `normalize_dataframe` reads
`df["tdp_watts" if col == "tdp" else col]` and raises `KeyError`,
contrary to the spec's never-raises guarantee. -/
theorem c2_tdp_column_keyerror :
    normalize_dataframe ⟨[("tdp", [.int 65])]⟩ = .error "KeyError: tdp_watts" := rfl

/-- C3: because the `(?i)ddr5[-\s]*\d*` pattern is tried first and
`re.search` matches it as a substring of "GDDR5"/"GDDR5X", those inputs
are normalized to the DDR name "DDR5", contrary to the claim; the GDDR6
family is unaffected. -/
theorem c3_gddr5_normalized_to_ddr5 :
    normalize_memory_type (.str "GDDR5") = .str "DDR5" ∧
    normalize_memory_type (.str "GDDR5X") = .str "DDR5" ∧
    normalize_memory_type (.str "GDDR6") = .str "GDDR6" ∧
    normalize_memory_type (.str "GDDR6X") = .str "GDDR6X" := by
  decide

/-- C4 counterexample: when the alias key `name` is enumerated before
the canonical key `model`, the alias value occupies the canonical slot
and the canonical non-null value "Y" is lost. -/
theorem c4_counterexample :
    (apply_field_mappings [("name", .str "X"), ("model", .str "Y")]).lookup "model"
        = some (.str "X") ∧
    (apply_field_mappings [("name", .str "X"), ("model", .str "Y")]).lookup "model"
        ≠ some (.str "Y") := by
  decide

/-- Looking up the key just assigned by a dict assignment. -/
theorem lookup_dictSetPy_self (acc : Record) (k : String) (v : JValue) :
    (dictSetPy acc k v).lookup k = some v := by
  induction acc with
  | nil => simp [dictSetPy, List.lookup]
  | cons kv rest ih =>
    obtain ⟨k0, v0⟩ := kv
    by_cases h : k0 = k
    · subst h
      simp [dictSetPy, List.lookup]
    · have hb : (k == k0) = false := by
        simp [beq_iff_eq]
        exact fun he => h he.symm
      simp [dictSetPy, h, List.lookup, hb, ih]

/-- A dict assignment leaves other keys unchanged. -/
theorem lookup_dictSetPy_ne (acc : Record) (k k' : String) (v : JValue) (h : k' ≠ k) :
    (dictSetPy acc k v).lookup k' = acc.lookup k' := by
  have hb : (k' == k) = false := by simp [beq_iff_eq, h]
  induction acc with
  | nil => simp [dictSetPy, List.lookup, hb]
  | cons kv rest ih =>
    obtain ⟨k0, v0⟩ := kv
    by_cases h0 : k0 = k
    · subst h0
      simp [dictSetPy, List.lookup, hb]
    · by_cases h1 : k' = k0
      · subst h1
        simp [dictSetPy, h0, List.lookup]
      · have hb1 : (k' == k0) = false := by simp [beq_iff_eq, h1]
        simp [dictSetPy, h0, List.lookup, hb1, ih]

/-- The aliasing loop never overwrites a non-null value already placed
under key `c`. -/
theorem afmLoop_preserves (r : Record) (c : String) (v : JValue)
    (hv : v ≠ .null) :
    ∀ acc : Record, acc.lookup c = some v → (afmLoop r acc).lookup c = some v := by
  induction r with
  | nil => intro acc h; simpa [afmLoop] using h
  | cons kv rest ih =>
    intro acc h
    obtain ⟨key, value⟩ := kv
    by_cases hm : fieldMap key = c
    · have hcond : ((acc.lookup (fieldMap key)).isNone
          || acc.lookup (fieldMap key) = some JValue.null) = false := by
        rw [hm, h]
        simp [hv]
      simp only [afmLoop, hcond, Bool.false_eq_true, if_neg, ite_false]
      exact ih acc h
    · simp only [afmLoop]
      by_cases hcond : ((acc.lookup (fieldMap key)).isNone
          || acc.lookup (fieldMap key) = some JValue.null) = true
      · rw [if_pos hcond]
        refine ih _ ?_
        rw [lookup_dictSetPy_ne _ _ _ _ (fun he => hm he.symm)]
        exact h
      · rw [if_neg hcond]
        exact ih acc h

/-- Before the canonical entry is reached, the slot for `c` holds
nothing or null, provided every earlier entry aliasing to `c` carries a
null value. -/
theorem afmLoop_pre_null (c : String) :
    ∀ (r acc : Record),
      (∀ kw ∈ r, fieldMap kw.1 = c → kw.2 = .null) →
      (acc.lookup c = none ∨ acc.lookup c = some .null) →
      ((afmLoop r acc).lookup c = none ∨ (afmLoop r acc).lookup c = some .null) := by
  intro r
  induction r with
  | nil => intro acc _ h; simpa [afmLoop] using h
  | cons kv rest ih =>
    intro acc hr h
    obtain ⟨key, value⟩ := kv
    simp only [afmLoop]
    by_cases hm : fieldMap key = c
    · have hval : value = .null := hr (key, value) (by simp) hm
      have hcond : ((acc.lookup (fieldMap key)).isNone
          || acc.lookup (fieldMap key) = some JValue.null) = true := by
        rw [hm]
        rcases h with h | h <;> simp [h]
      rw [if_pos hcond]
      refine ih _ (fun kw hk => hr kw (by simp [hk])) ?_
      right
      rw [hm, hval]
      exact lookup_dictSetPy_self acc c .null
    · have hne : c ≠ fieldMap key := fun he => hm he.symm
      by_cases hcond : ((acc.lookup (fieldMap key)).isNone
          || acc.lookup (fieldMap key) = some JValue.null) = true
      · rw [if_pos hcond]
        refine ih _ (fun kw hk => hr kw (by simp [hk])) ?_
        rw [lookup_dictSetPy_ne _ _ _ _ hne]
        exact h
      · rw [if_neg hcond]
        exact ih _ (fun kw hk => hr kw (by simp [hk])) h

/-- The aliasing loop splits over list append. -/
theorem afmLoop_append (xs ys acc : Record) :
    afmLoop (xs ++ ys) acc = afmLoop ys (afmLoop xs acc) := by
  induction xs generalizing acc with
  | nil => simp [afmLoop]
  | cons kv rest ih =>
    obtain ⟨key, value⟩ := kv
    simp only [List.cons_append, afmLoop]
    exact ih _

/-- C4 (amended): a canonical field value survives aliasing provided
every alias entry enumerated before it carries a null value; an alias
enumerated earlier with a non-null value claims the slot instead (see
the counterexample).  Here `c` is a canonical key (not itself an alias)
and `v` its non-null value. -/
theorem c4_canonical_value_kept (pre post : Record) (c : String) (v : JValue)
    (hc : fieldMap c = c) (hv : v ≠ .null)
    (hpre : ∀ kw ∈ pre, fieldMap kw.1 = c → kw.2 = .null) :
    (apply_field_mappings (pre ++ (c, v) :: post)).lookup c = some v := by
  unfold apply_field_mappings
  rw [afmLoop_append]
  set acc1 := afmLoop pre [] with hacc1
  have h1 : acc1.lookup c = none ∨ acc1.lookup c = some .null := by
    refine afmLoop_pre_null c pre [] hpre ?_
    left
    simp [List.lookup]
  have hcond : ((acc1.lookup (fieldMap c)).isNone
      || acc1.lookup (fieldMap c) = some JValue.null) = true := by
    rw [hc]
    rcases h1 with h | h <;> simp [h]
  simp only [afmLoop, hcond, if_pos]
  refine afmLoop_preserves post c v hv _ ?_
  rw [hc]
  exact lookup_dictSetPy_self acc1 c v

/-- C4 witness: with the canonical key first, the canonical value is
kept. -/
theorem c4_witness :
    (apply_field_mappings [("model", .str "Y"), ("name", .str "X")]).lookup "model"
      = some (.str "Y") :=
  c4_canonical_value_kept [] [("name", .str "X")] "model" (.str "Y")
    (by decide) (by decide) (by simp)

/-- A successful association-list lookup comes from a list entry. -/
theorem lookup_mem_pairs (l : List (String × String)) (k t : String)
    (h : l.lookup k = some t) : (k, t) ∈ l := by
  induction l with
  | nil => simp [List.lookup] at h
  | cons kv rest ih =>
    obtain ⟨k0, v0⟩ := kv
    by_cases hk : k = k0
    · subst hk
      simp [List.lookup] at h
      simp [h]
    · have hb : (k == k0) = false := by simp [beq_iff_eq, hk]
      simp [List.lookup, hb] at h
      exact List.mem_cons_of_mem _ (ih h)

/-- No alias maps to the canonical key `socket`. -/
theorem fieldMap_ne_socket (k : String) (h : k ≠ "socket") : fieldMap k ≠ "socket" := by
  unfold fieldMap
  cases hl : FIELD_MAPPINGS.lookup k with
  | none => simpa using h
  | some t =>
    have hmem := lookup_mem_pairs _ _ _ hl
    simp only [FIELD_MAPPINGS, List.mem_cons, List.not_mem_nil, or_false,
      Prod.mk.injEq] at hmem
    rcases hmem with ⟨_, rfl⟩ | ⟨_, rfl⟩ | ⟨_, rfl⟩ | ⟨_, rfl⟩ | ⟨_, rfl⟩ |
      ⟨_, rfl⟩ | ⟨_, rfl⟩ | ⟨_, rfl⟩ | ⟨_, rfl⟩ | ⟨_, rfl⟩ | ⟨_, rfl⟩ <;> simp

/-- If the input record has no `socket` key, the aliased record has
none either. -/
theorem afmLoop_no_socket :
    ∀ (r acc : Record), "socket" ∉ r.map Prod.fst →
      acc.lookup "socket" = none → (afmLoop r acc).lookup "socket" = none := by
  intro r
  induction r with
  | nil => intro acc _ h; simpa [afmLoop] using h
  | cons kv rest ih =>
    intro acc hr h
    obtain ⟨key, value⟩ := kv
    simp only [List.map_cons, List.mem_cons, not_or] at hr
    have hkey : key ≠ "socket" := fun he => hr.1 he.symm
    have hne : "socket" ≠ fieldMap key := fun he => fieldMap_ne_socket key hkey he.symm
    simp only [afmLoop]
    by_cases hcond : ((acc.lookup (fieldMap key)).isNone
        || acc.lookup (fieldMap key) = some JValue.null) = true
    · rw [if_pos hcond]
      refine ih _ hr.2 ?_
      rw [lookup_dictSetPy_ne _ _ _ _ hne]
      exact h
    · rw [if_neg hcond]
      exact ih _ hr.2 h

/-- A required field without default whose value is missing makes the
schema loop of `map_record` reject the whole record. -/
theorem mapFields_reject (schema : List (String × FieldSpec)) (record : Record)
    (name : String) (spec : FieldSpec) (hmem : (name, spec) ∈ schema)
    (hreq : spec.required = true) (hdflt : spec.dflt = none)
    (hraw : jget record name = .null) :
    ∀ acc : Record, mapFields record schema acc = none := by
  induction schema with
  | nil => simp at hmem
  | cons ns rest ih =>
    intro acc
    obtain ⟨n0, s0⟩ := ns
    rcases List.mem_cons.mp hmem with heq | htail
    · obtain ⟨h1, h2⟩ := Prod.mk.injEq .. |>.mp heq.symm
      subst h1
      subst h2
      simp [mapFields, field_step, hraw, hdflt, hreq]
    · cases hfs : field_step (jget record n0) s0 with
      | reject => simp [mapFields, hfs]
      | skip => simp [mapFields, hfs]; exact ih htail _
      | put v => simp [mapFields, hfs]; exact ih htail _

/-- C8: a CPU record with no `socket` key (no alias can supply one) is
rejected by `map_record`: the result is null, never a partial record. -/
theorem c8_missing_socket_rejected (r : Record)
    (h : "socket" ∉ r.map Prod.fst) : map_record r "CPU" = none := by
  have hs : SCHEMAS.lookup "CPU" = some CPU_SCHEMA := rfl
  unfold map_record
  rw [hs]
  refine mapFields_reject CPU_SCHEMA _ "socket" (req .tstr) (by decide) rfl rfl ?_ []
  have hl : (apply_field_mappings r).lookup "socket" = none := by
    unfold apply_field_mappings
    exact afmLoop_no_socket r [] h (by simp [List.lookup])
  simp [jget, hl]

/-- C8 witness: a CPU record carrying every other required field but no
socket is rejected. -/
theorem c8_witness :
    "socket" ∉ ([("objectID", .str "cpu-amd-x"), ("brand", .str "AMD"),
      ("model", .str "X"), ("tdp_watts", .int 65), ("cores", .int 8),
      ("threads", .int 16), ("memory_type", .list (.cons (.str "DDR5") .nil)),
      ("price_usd", .int 299), ("performance_tier", .str "mid-range"),
      ("compatibility_tags", .list .nil)] : Record).map Prod.fst ∧
    map_record [("objectID", .str "cpu-amd-x"), ("brand", .str "AMD"),
      ("model", .str "X"), ("tdp_watts", .int 65), ("cores", .int 8),
      ("threads", .int 16), ("memory_type", .list (.cons (.str "DDR5") .nil)),
      ("price_usd", .int 299), ("performance_tier", .str "mid-range"),
      ("compatibility_tags", .list .nil)] "CPU" = none :=
  ⟨by decide, c8_missing_socket_rejected _ (by decide)⟩

/-- Sanitizing a value never leaves a NaN or infinite float at the top
level. -/
theorem sanitize_value_not_bad (v : JValue) : isBadFloat (sanitize_value v) = false := by
  cases v <;> simp [sanitize_value, isBadFloat]

/-- Every field of a sanitized record is free of NaN/Inf floats. -/
theorem sanitize_record_not_bad (rec : Record) :
    ∀ kv ∈ sanitize_record rec, isBadFloat kv.2 = false := by
  induction rec with
  | nil => simp [sanitize_record]
  | cons kv rest ih =>
    obtain ⟨k, v⟩ := kv
    intro kw hkw
    rcases List.mem_cons.mp hkw with heq | htail
    · subst heq
      exact sanitize_value_not_bad v
    · exact ih kw htail

/-- C9: uploading 2500 records yields exactly 3 upload calls
(batches of at most `BATCH_SIZE = 1000`), and on every retry attempt of
every call the payload passed to `save_objects` has every NaN/infinite
float field value replaced by null. -/
theorem c9_upload_batching_sanitized (records : List Record)
    (h : records.length = 2500) :
    (upload_batches records).length = 3 ∧
    ∀ b ∈ upload_batches records, ∀ p ∈ attempt_payloads b,
      ∀ rec ∈ p, ∀ kv ∈ rec, isBadFloat kv.2 = false := by
  constructor
  · have hne : records.isEmpty = false := by
      cases records with
      | nil => simp at h
      | cons a t => rfl
    simp [upload_batches, hne, h, BATCH_SIZE]
  · intro b _ p hp rec hrec kv hkv
    have hpb : p = b.map sanitize_record :=
      List.eq_of_mem_replicate hp
    subst hpb
    obtain ⟨orig, _, horig⟩ := List.mem_map.mp hrec
    subst horig
    exact sanitize_record_not_bad orig kv hkv

/-- C9 witness: instantiated on 2500 empty records. -/
theorem c9_witness :
    (List.replicate 2500 ([] : Record)).length = 2500 ∧
    ((upload_batches (List.replicate 2500 ([] : Record))).length = 3 ∧
      ∀ b ∈ upload_batches (List.replicate 2500 ([] : Record)),
        ∀ p ∈ attempt_payloads b, ∀ rec ∈ p, ∀ kv ∈ rec, isBadFloat kv.2 = false) :=
  ⟨List.length_replicate 2500 [],
    c9_upload_batching_sanitized _ (List.length_replicate 2500 [])⟩

/-- C5 counterexample: the non-integer value 65.5 lies in the span
0–200 of the declared ranges, no declared range contains it (it falls in
the gap between `(0, 65)` and `(66, 125)`), yet `_get_tdp_category`
returns the fallback `extreme-tdp` although 65.5 is not above the last
explicit boundary 200. -/
theorem c5_counterexample :
    numLe (.fin 0) (.fin (mkRat 131 2)) = true ∧
    numLe (.fin (mkRat 131 2)) (.fin 200) = true ∧
    get_tdp_category (.fin (mkRat 131 2)) = "extreme-tdp" ∧
    ∀ p ∈ TDP_CATEGORIES, ¬(numLe p.2.1 (.fin (mkRat 131 2)) = true ∧
      numLe (.fin (mkRat 131 2)) p.2.2 = true) := by
  decide

/-- C5 (amended): for every integer TDP `v` with `0 ≤ v ≤ 200`,
`_get_tdp_category(v)` returns the tag of the declared range containing
`v`; the fallback can only fire for non-integer values in the gaps
between consecutive ranges (see the counterexample at 65.5). -/
theorem c5_tdp_integer_ranges (n : ℤ) (h0 : 0 ≤ n) (h200 : n ≤ 200) :
    (get_tdp_category (.fin n) = "low-tdp" ∧ 0 ≤ n ∧ n ≤ 65) ∨
    (get_tdp_category (.fin n) = "mid-tdp" ∧ 66 ≤ n ∧ n ≤ 125) ∨
    (get_tdp_category (.fin n) = "high-tdp" ∧ 126 ≤ n ∧ n ≤ 200) := by
  have hq0 : (0 : ℚ) ≤ (n : ℚ) := by exact_mod_cast h0
  by_cases h65 : n ≤ 65
  · left
    have hq65 : ((n : ℚ)) ≤ 65 := by exact_mod_cast h65
    refine ⟨?_, h0, h65⟩
    simp [get_tdp_category, bucket_lookup, TDP_CATEGORIES, numLe, hq0, hq65]
  · have h66 : 66 ≤ n := by omega
    have hq66 : (66 : ℚ) ≤ (n : ℚ) := by exact_mod_cast h66
    have hq65n : ¬ ((n : ℚ) ≤ 65) := by
      have : (65 : ℚ) < (n : ℚ) := by exact_mod_cast (by omega : (65 : ℤ) < n)
      exact not_le.mpr this
    by_cases h125 : n ≤ 125
    · right; left
      have hq125 : ((n : ℚ)) ≤ 125 := by exact_mod_cast h125
      refine ⟨?_, h66, h125⟩
      simp [get_tdp_category, bucket_lookup, TDP_CATEGORIES, numLe, hq0, hq65n, hq66, hq125]
    · right; right
      have h126 : 126 ≤ n := by omega
      have hq126 : (126 : ℚ) ≤ (n : ℚ) := by exact_mod_cast h126
      have hq125n : ¬ ((n : ℚ) ≤ 125) := by
        have : (125 : ℚ) < (n : ℚ) := by exact_mod_cast (by omega : (125 : ℤ) < n)
        exact not_le.mpr this
      have hq200 : ((n : ℚ)) ≤ 200 := by exact_mod_cast h200
      refine ⟨?_, h126, h200⟩
      simp [get_tdp_category, bucket_lookup, TDP_CATEGORIES, numLe, hq0, hq65n, hq125n, hq126, hq200]

/-- C5 witness: instantiated at the integer 100. -/
theorem c5_witness :
    (0 ≤ (100 : ℤ) ∧ (100 : ℤ) ≤ 200) ∧
    ((get_tdp_category (.fin (100 : ℤ)) = "low-tdp" ∧ 0 ≤ (100 : ℤ) ∧ (100 : ℤ) ≤ 65) ∨
     (get_tdp_category (.fin (100 : ℤ)) = "mid-tdp" ∧ 66 ≤ (100 : ℤ) ∧ (100 : ℤ) ≤ 125) ∨
     (get_tdp_category (.fin (100 : ℤ)) = "high-tdp" ∧ 126 ≤ (100 : ℤ) ∧ (100 : ℤ) ≤ 200)) :=
  ⟨⟨by decide, by decide⟩, c5_tdp_integer_ranges 100 (by decide) (by decide)⟩

/-- A successful `list(set(tags))` is duplicate-free. -/
theorem finish_nodup (l t : List JValue) (h : finishTags l = some t) : t.Nodup := by
  unfold finishTags at h
  split at h
  · exact absurd h (by simp)
  · obtain rfl : l.dedup = t := by simpa using h
    exact List.nodup_dedup l

/-- Inverting one generator: a successful run is a successful
`finishTags` of the concatenated segments. -/
theorem bind_finish_nodup (o : Option (List JValue)) (t : List JValue)
    (h : o.bind finishTags = some t) : t.Nodup := by
  cases o with
  | none => exact absurd h (by simp)
  | some l => exact finish_nodup l t (by simpa using h)

/-- Every branch of the dispatch table yields a duplicate-free list. -/
theorem dispatch_nodup (r : Record) (s : String) (t : List JValue)
    (h : dispatch_tags r s = some t) : t.Nodup := by
  unfold dispatch_tags at h
  split at h <;>
    first
    | exact bind_finish_nodup _ _ h
    | (obtain rfl : [] = t := by simpa using h
       exact List.nodup_nil)

/-- C7: for every component record on which `generate_tags` returns a
list, that list contains no duplicate entries — every generator passes
its tags through `list(set(...))`, and unknown component types yield the
empty list. -/
theorem c7_no_duplicate_tags (r : Record) (tags : List JValue)
    (h : generate_tags r = some tags) : tags.Nodup := by
  unfold generate_tags at h
  cases hs : strOf (jgetD r "component_type" (.str "")) with
  | none => rw [hs] at h; exact absurd h (by simp)
  | some cts =>
    rw [hs] at h
    exact dispatch_nodup r (pyUpper cts) tags (by simpa using h)

/-- C7 witness: a CPU record listing the same memory type twice still
produces a duplicate-free tag list. -/
theorem c7_witness :
    List.Nodup [JValue.str "ddr5", JValue.str "no-igpu"] :=
  c7_no_duplicate_tags
    [("component_type", .str "CPU"),
     ("memory_type", .list (.cons (.str "DDR5") (.cons (.str "DDR5") .nil)))]
    [JValue.str "ddr5", JValue.str "no-igpu"] (by decide)

/-- The four TDP-category tag names. -/
def TDP_TAG_NAMES : List String := ["low-tdp", "mid-tdp", "high-tdp", "extreme-tdp"]

/-- The four core-count tag names. -/
def CORE_TAG_NAMES : List String :=
  ["quad-core", "octa-core", "high-core-count", "extreme-core-count"]

/-- A bucket lookup always returns one of the table tags or the
fallback. -/
theorem bucket_mem (tbl : List (String × PyNum × PyNum)) (fb : String) (v : PyNum) :
    bucket_lookup tbl fb v ∈ tbl.map Prod.fst ++ [fb] := by
  induction tbl with
  | nil => simp [bucket_lookup]
  | cons p rest ih =>
    obtain ⟨tag, lo, hi⟩ := p
    by_cases h : (numLe lo v && numLe v hi) = true
    · simp [bucket_lookup, h]
    · simp only [bucket_lookup, h, if_false, Bool.false_eq_true, List.map_cons,
        List.cons_append, List.mem_cons]
      exact Or.inr ih

/-- Inverting one step of `optionAll`. -/
theorem optionAll_cons (o : Option (List JValue)) (os : List (Option (List JValue)))
    (l : List JValue) (h : optionAll (o :: os) = some l) :
    ∃ a as, o = some a ∧ optionAll os = some as ∧ l = a ++ as := by
  cases o with
  | none => simp [optionAll] at h
  | some a =>
    cases has : optionAll os with
    | none => simp [optionAll, has] at h
    | some as =>
      refine ⟨a, as, rfl, rfl, ?_⟩
      simp only [optionAll, has, Option.some_bind, Option.map_some] at h
      exact (Option.some.injEq .. |>.mp h).symm

/-- Membership in a successful `list(set(tags))` is membership in the
underlying list. -/
theorem finish_mem (l t : List JValue) (h : finishTags l = some t) :
    ∀ x, x ∈ t ↔ x ∈ l := by
  unfold finishTags at h
  split at h
  · exact absurd h (by simp)
  · obtain rfl : l.dedup = t := by simpa using h
    intro x
    exact List.mem_dedup

/-- Segments of the shape `if truthy v then (toNum v).map (fun n =>
[str (g n)]) else some []` only emit tags produced by `g`. -/
theorem seg_numeric_mem (v : JValue) (g : PyNum → String) (s : List JValue)
    (h : (if truthy v then (toNum v).map (fun n => [JValue.str (g n)]) else some []) = some s) :
    ∀ x ∈ s, ∃ n, x = .str (g n) := by
  split at h
  · cases hn : toNum v with
    | none => rw [hn] at h; simp at h
    | some n =>
      rw [hn] at h
      obtain rfl : [JValue.str (g n)] = s := by simpa using h
      intro x hx
      simp at hx
      exact ⟨n, hx⟩
  · obtain rfl : ([] : List JValue) = s := by simpa using h
    simp

/-- A `seg_lower_field` tag comes from a string field value,
lower-cased. -/
theorem seg_lower_field_mem (r : Record) (key : String) (s : List JValue)
    (h : seg_lower_field r key = some s) :
    ∀ x ∈ s, ∃ s0, r.lookup key = some (.str s0) ∧ x = .str (pyLower s0) := by
  unfold seg_lower_field at h
  cases hv : r.lookup key with
  | none =>
    simp only [jget, hv, Option.getD_none] at h
    obtain rfl : ([] : List JValue) = s := by simpa [truthy] using h
    simp
  | some v0 =>
    simp only [jget, hv, Option.getD_some] at h
    by_cases ht : truthy v0 = true
    · rw [if_pos ht] at h
      cases v0 with
      | str s0 =>
        obtain rfl : [JValue.str (pyLower s0)] = s := by simpa [lowerV] using h
        intro x hx
        simp at hx
        rw [hx]
        exact ⟨s0, rfl, rfl⟩
      | null => simp [lowerV] at h
      | bool b => simp [lowerV] at h
      | int n => simp [lowerV] at h
      | float q => simp [lowerV] at h
      | nan => simp [lowerV] at h
      | inf b => simp [lowerV] at h
      | list xs => simp [lowerV] at h
      | dict fs => simp [lowerV] at h
    · rw [if_neg ht] at h
      obtain rfl : ([] : List JValue) = s := by simpa using h
      simp

/-- A `seg_tier` tag is the raw `performance_tier` value. -/
theorem seg_tier_mem (r : Record) (s : List JValue) (h : seg_tier r = some s) :
    ∀ x ∈ s, r.lookup "performance_tier" = some x := by
  unfold seg_tier at h
  cases hv : r.lookup "performance_tier" with
  | none =>
    simp only [jget, hv, Option.getD_none] at h
    obtain rfl : ([] : List JValue) = s := by simpa [truthy] using h
    simp
  | some v0 =>
    simp only [jget, hv, Option.getD_some] at h
    by_cases ht : truthy v0 = true
    · rw [if_pos ht] at h
      obtain rfl : [v0] = s := by simpa using h
      intro x hx
      simp at hx
      rw [hx]
    · rw [if_neg ht] at h
      obtain rfl : ([] : List JValue) = s := by simpa using h
      simp

/-- The characters of a pcie tag always start with `pcie`. -/
theorem pcie_tag_data (u : String) :
    ∃ rest, (strRemoveChar (pyLower ("pcie" ++ u)) '.').data
      = 'p' :: 'c' :: 'i' :: 'e' :: rest := by
  obtain ⟨ud⟩ := u
  refine ⟨(ud.map Char.toLower).filter (fun d => d ≠ '.'), ?_⟩
  have happ : ("pcie" ++ String.mk ud).data = 'p' :: 'c' :: 'i' :: 'e' :: ud := rfl
  simp [strRemoveChar, pyLower, happ]

/-- A `seg_pcie` tag's name starts with `pcie`. -/
theorem seg_pcie_mem (r : Record) (s : List JValue) (h : seg_pcie r = some s) :
    ∀ x ∈ s, ∃ t rest, x = JValue.str t ∧ t.data = 'p' :: 'c' :: 'i' :: 'e' :: rest := by
  simp only [seg_pcie] at h
  split at h
  · obtain rfl : [JValue.str (strRemoveChar (pyLower ("pcie" ++ pyStrV (jget r "pcie_version"))) '.')] = s := by
      simpa using h
    intro x hx
    simp at hx
    subst hx
    obtain ⟨rest, hrest⟩ := pcie_tag_data (pyStrV (jget r "pcie_version"))
    exact ⟨_, rest, rfl, hrest⟩
  · obtain rfl : ([] : List JValue) = s := by simpa using h
    simp

/-- A successful `.lower()` call pins the value to be a string. -/
theorem lowerV_some (v : JValue) (w : String) (h : lowerV v = some w) :
    ∃ s0, v = .str s0 ∧ w = pyLower s0 := by
  cases v with
  | str s0 =>
    refine ⟨s0, rfl, ?_⟩
    simpa [lowerV] using h.symm
  | null => simp [lowerV] at h
  | bool b => simp [lowerV] at h
  | int n => simp [lowerV] at h
  | float q => simp [lowerV] at h
  | nan => simp [lowerV] at h
  | inf b => simp [lowerV] at h
  | list xs => simp [lowerV] at h
  | dict fs => simp [lowerV] at h

/-- Tags from the lower-casing loop come from string items. -/
theorem lowerEach_mem (items : List JValue) :
    ∀ (l : List JValue), lowerEach items = some l →
      ∀ x ∈ l, ∃ s0, JValue.str s0 ∈ items ∧ x = .str (pyLower s0) := by
  induction items with
  | nil =>
    intro l h x hx
    obtain rfl : ([] : List JValue) = l := by simpa [lowerEach] using h
    simp at hx
  | cons v rest ih =>
    intro l h x hx
    simp only [lowerEach] at h
    by_cases ht : truthy v = true
    · rw [if_pos ht] at h
      cases hlv : lowerV v with
      | none => rw [hlv] at h; simp at h
      | some w =>
        rw [hlv] at h
        cases hrest : lowerEach rest with
        | none => rw [hrest] at h; simp at h
        | some l2 =>
          rw [hrest] at h
          obtain rfl : JValue.str w :: l2 = l := by simpa using h
          obtain ⟨s0, rfl, rfl⟩ := lowerV_some v w hlv
          rcases List.mem_cons.mp hx with rfl | hx2
          · exact ⟨s0, List.mem_cons_self _ _, rfl⟩
          · obtain ⟨s1, hm, hxe⟩ := ih l2 hrest x hx2
            exact ⟨s1, List.mem_cons_of_mem _ hm, hxe⟩
    · rw [if_neg ht] at h
      obtain ⟨s1, hm, hxe⟩ := ih l h x hx
      exact ⟨s1, List.mem_cons_of_mem _ hm, hxe⟩

/-- Tags from a `seg_lower_items` block come from string items of the
iterated field value. -/
theorem seg_lower_items_mem (r : Record) (key : String) (s : List JValue)
    (h : seg_lower_items r key = some s) :
    ∀ x ∈ s, ∃ items s0, iterItems (jgetD r key (.list .nil)) = some items ∧
      JValue.str s0 ∈ items ∧ x = .str (pyLower s0) := by
  unfold seg_lower_items at h
  cases hit : iterItems (jgetD r key (.list .nil)) with
  | none => rw [hit] at h; simp at h
  | some items =>
    rw [hit] at h
    intro x hx
    obtain ⟨s0, hm, hxe⟩ := lowerEach_mem items s (by simpa using h) x hx
    exact ⟨items, s0, rfl, hm, hxe⟩

/-- The integrated-graphics block only emits `igpu`/`no-igpu`. -/
theorem seg_igpu_mem (r : Record) (s : List JValue) (h : seg_igpu r = some s) :
    ∀ x ∈ s, x = .str "igpu" ∨ x = .str "no-igpu" := by
  simp only [seg_igpu] at h
  obtain rfl : [JValue.str (if truthy (jget r "integrated_graphics") = true
      then "igpu" else "no-igpu")] = s := by simpa using h
  intro x hx
  simp at hx
  rw [hx]
  split
  · exact Or.inl rfl
  · exact Or.inr rfl

/-- The GPU brand/model block only emits the five fixed brand tags. -/
theorem seg_gpu_brand_mem (r : Record) (s : List JValue) (h : seg_gpu_brand r = some s) :
    ∀ x ∈ s, x ∈ [JValue.str "nvidia", JValue.str "rtx", JValue.str "ray-tracing",
      JValue.str "gtx", JValue.str "amd", JValue.str "rdna"] := by
  unfold seg_gpu_brand at h
  cases hb : strOf (jgetD r "brand" (.str "")) with
  | none => rw [hb] at h; simp at h
  | some b =>
    rw [hb] at h
    cases hm : strOf (jgetD r "model" (.str "")) with
    | none => rw [hm] at h; simp at h
    | some m =>
      rw [hm] at h
      simp only [Option.some_bind, Option.pure_def] at h
      obtain rfl := (Option.some.injEq .. |>.mp h)
      intro x hx
      repeat' split at hx
      all_goals simp_all
      all_goals tauto

/-- With `tdp_watts = 0` the GPU TDP block emits nothing (truthiness
treats 0 as absent). -/
theorem seg_gpu_tdp_zero (r : Record) (s : List JValue)
    (hl : r.lookup "tdp_watts" = some (.int 0)) (h : seg_gpu_tdp r = some s) :
    s = [] := by
  simp only [seg_gpu_tdp, jget, hl, Option.getD_some] at h
  simpa [truthy] using h.symm

/-- With `cores = 0` the CPU core-count block emits nothing. -/
theorem seg_cores_zero (r : Record) (s : List JValue)
    (hl : r.lookup "cores" = some (.int 0)) (h : seg_cores r = some s) :
    s = [] := by
  simp only [seg_cores, jget, hl, Option.getD_some] at h
  simpa [truthy] using h.symm

/-- No TDP-category name is a VRAM-tier tag. -/
theorem tdp_name_not_vram : ∀ a ∈ TDP_TAG_NAMES,
    a ∉ VRAM_TIERS.map Prod.fst ++ ["vram-32gb-plus"] := by decide

/-- No TDP-category name is a GPU-length tag. -/
theorem tdp_name_not_length : ∀ a ∈ TDP_TAG_NAMES,
    a ∉ GPU_LENGTH_CATEGORIES.map Prod.fst ++ ["extra-long-gpu"] := by decide

/-- No core-count name is a TDP-category tag. -/
theorem core_name_not_tdp : ∀ a ∈ CORE_TAG_NAMES,
    a ∉ TDP_CATEGORIES.map Prod.fst ++ ["extreme-tdp"] := by decide

/-- No TDP-category name is a GPU brand tag. -/
theorem tdp_name_not_brand : ∀ a ∈ TDP_TAG_NAMES,
    JValue.str a ∉ [JValue.str "nvidia", JValue.str "rtx", JValue.str "ray-tracing",
      JValue.str "gtx", JValue.str "amd", JValue.str "rdna"] := by decide

/-- No core-count name is `igpu` or `no-igpu`. -/
theorem core_name_not_igpu : ∀ a ∈ CORE_TAG_NAMES, a ≠ "igpu" ∧ a ≠ "no-igpu" := by decide

/-- Neither the TDP-category nor the core-count names start with
`pcie`. -/
theorem name_data_ne_pcie (a : String)
    (h4 : a ∈ TDP_TAG_NAMES ∨ a ∈ CORE_TAG_NAMES) :
    ∀ rest, a.data ≠ 'p' :: 'c' :: 'i' :: 'e' :: rest := by
  intro rest hne
  have hh := congrArg List.head? hne
  simp only [List.head?_cons] at hh
  rcases h4 with ha | ha <;>
    simp only [TDP_TAG_NAMES, CORE_TAG_NAMES, List.mem_cons,
      List.not_mem_nil, or_false] at ha <;>
    rcases ha with rfl | rfl | rfl | rfl <;>
    exact absurd hh (by decide)

/-- On a GPU record whose `tdp_watts` is 0, no TDP-category tag is
emitted (zero is falsy), provided no passthrough field (`memory_type`,
`performance_tier`) happens to carry such a name itself. -/
theorem gpu_zero_tdp_no_tag (r : Record) (tags : List JValue) (name : String)
    (hct : r.lookup "component_type" = some (.str "GPU"))
    (htdp : r.lookup "tdp_watts" = some (.int 0))
    (hgen : generate_tags r = some tags)
    (hname : name ∈ TDP_TAG_NAMES)
    (hmemty : ∀ s0, r.lookup "memory_type" = some (.str s0) → pyLower s0 ∉ TDP_TAG_NAMES)
    (htier : ∀ v, r.lookup "performance_tier" = some v → v ≠ .str name) :
    JValue.str name ∉ tags := by
  have hg : generate_gpu_tags r = some tags := by
    unfold generate_tags at hgen
    simp only [jgetD, hct, Option.getD_some, strOf, Option.some_bind] at hgen
    have hup : pyUpper "GPU" = "GPU" := by decide
    rw [hup] at hgen
    exact hgen
  unfold generate_gpu_tags at hg
  cases ho : optionAll [seg_gpu_tdp r, seg_vram r, seg_length r, seg_pcie r,
      seg_lower_field r "memory_type", seg_gpu_brand r, seg_tier r] with
  | none => rw [ho] at hg; simp at hg
  | some l =>
    rw [ho] at hg
    have hfin : finishTags l = some tags := by simpa using hg
    obtain ⟨s1, l1, h1, ho1, rfl⟩ := optionAll_cons _ _ _ ho
    obtain ⟨s2, l2, h2, ho2, rfl⟩ := optionAll_cons _ _ _ ho1
    obtain ⟨s3, l3, h3, ho3, rfl⟩ := optionAll_cons _ _ _ ho2
    obtain ⟨s4, l4, h4, ho4, rfl⟩ := optionAll_cons _ _ _ ho3
    obtain ⟨s5, l5, h5, ho5, rfl⟩ := optionAll_cons _ _ _ ho4
    obtain ⟨s6, l6, h6, ho6, rfl⟩ := optionAll_cons _ _ _ ho5
    obtain ⟨s7, l7, h7, ho7, rfl⟩ := optionAll_cons _ _ _ ho6
    have hl7 : l7 = [] := by
      have := ho7.symm
      simpa [optionAll] using this
    subst hl7
    intro hx
    have hx' := (finish_mem _ _ hfin _).mp hx
    simp only [List.mem_append, List.not_mem_nil, or_false] at hx'
    rcases hx' with hx1 | hx2 | hx3 | hx4 | hx5 | hx6 | hx7
    · rw [seg_gpu_tdp_zero r s1 htdp h1] at hx1
      exact absurd hx1 (List.not_mem_nil _)
    · simp only [seg_vram] at h2
      obtain ⟨n, hn⟩ := seg_numeric_mem _ get_vram_tier s2 h2 _ hx2
      have hnm : name = get_vram_tier n := by simpa using hn
      have hb : get_vram_tier n ∈ List.map Prod.fst VRAM_TIERS ++ ["vram-32gb-plus"] :=
        bucket_mem VRAM_TIERS "vram-32gb-plus" n
      rw [← hnm] at hb
      exact tdp_name_not_vram name hname hb
    · simp only [seg_length] at h3
      obtain ⟨n, hn⟩ := seg_numeric_mem _ get_gpu_length_category s3 h3 _ hx3
      have hnm : name = get_gpu_length_category n := by simpa using hn
      have hb : get_gpu_length_category n ∈
          List.map Prod.fst GPU_LENGTH_CATEGORIES ++ ["extra-long-gpu"] :=
        bucket_mem GPU_LENGTH_CATEGORIES "extra-long-gpu" n
      rw [← hnm] at hb
      exact tdp_name_not_length name hname hb
    · obtain ⟨t, rest, hxt, hdata⟩ := seg_pcie_mem r s4 h4 _ hx4
      have hnt : name = t := by simpa using hxt
      rw [← hnt] at hdata
      exact name_data_ne_pcie name (Or.inl hname) rest hdata
    · obtain ⟨s0, hlk, hx5e⟩ := seg_lower_field_mem r "memory_type" s5 h5 _ hx5
      have hns : name = pyLower s0 := by simpa using hx5e
      refine hmemty s0 hlk ?_
      rw [← hns]
      exact hname
    · have hmem6 := seg_gpu_brand_mem r s6 h6 _ hx6
      exact tdp_name_not_brand name hname hmem6
    · have := seg_tier_mem r s7 h7 _ hx7
      exact htier _ this rfl

/-- On a CPU record whose `cores` is 0, no core-count tag is emitted
(zero is falsy), provided no passthrough field (`socket`, `memory_type`,
`performance_tier`) happens to carry such a name itself. -/
theorem cpu_zero_cores_no_tag (r : Record) (tags : List JValue) (name : String)
    (hct : r.lookup "component_type" = some (.str "CPU"))
    (hcores : r.lookup "cores" = some (.int 0))
    (hgen : generate_tags r = some tags)
    (hname : name ∈ CORE_TAG_NAMES)
    (hsock : ∀ s0, r.lookup "socket" = some (.str s0) → pyLower s0 ∉ CORE_TAG_NAMES)
    (hmemty : ∀ items, iterItems (jgetD r "memory_type" (.list .nil)) = some items →
      ∀ s0, JValue.str s0 ∈ items → pyLower s0 ∉ CORE_TAG_NAMES)
    (htier : ∀ v, r.lookup "performance_tier" = some v → v ≠ .str name) :
    JValue.str name ∉ tags := by
  have hg : generate_cpu_tags r = some tags := by
    unfold generate_tags at hgen
    simp only [jgetD, hct, Option.getD_some, strOf, Option.some_bind] at hgen
    have hup : pyUpper "CPU" = "CPU" := by decide
    rw [hup] at hgen
    exact hgen
  unfold generate_cpu_tags at hg
  cases ho : optionAll [seg_lower_field r "socket", seg_lower_items r "memory_type",
      seg_pcie r, seg_cpu_tdp r, seg_igpu r, seg_cores r, seg_tier r] with
  | none => rw [ho] at hg; simp at hg
  | some l =>
    rw [ho] at hg
    have hfin : finishTags l = some tags := by simpa using hg
    obtain ⟨s1, l1, h1, ho1, rfl⟩ := optionAll_cons _ _ _ ho
    obtain ⟨s2, l2, h2, ho2, rfl⟩ := optionAll_cons _ _ _ ho1
    obtain ⟨s3, l3, h3, ho3, rfl⟩ := optionAll_cons _ _ _ ho2
    obtain ⟨s4, l4, h4, ho4, rfl⟩ := optionAll_cons _ _ _ ho3
    obtain ⟨s5, l5, h5, ho5, rfl⟩ := optionAll_cons _ _ _ ho4
    obtain ⟨s6, l6, h6, ho6, rfl⟩ := optionAll_cons _ _ _ ho5
    obtain ⟨s7, l7, h7, ho7, rfl⟩ := optionAll_cons _ _ _ ho6
    have hl7 : l7 = [] := by
      have := ho7.symm
      simpa [optionAll] using this
    subst hl7
    intro hx
    have hx' := (finish_mem _ _ hfin _).mp hx
    simp only [List.mem_append, List.not_mem_nil, or_false] at hx'
    rcases hx' with hx1 | hx2 | hx3 | hx4 | hx5 | hx6 | hx7
    · obtain ⟨s0, hlk, hx1e⟩ := seg_lower_field_mem r "socket" s1 h1 _ hx1
      have hns : name = pyLower s0 := by simpa using hx1e
      refine hsock s0 hlk ?_
      rw [← hns]
      exact hname
    · obtain ⟨items, s0, hit, hm, hx2e⟩ := seg_lower_items_mem r "memory_type" s2 h2 _ hx2
      have hns : name = pyLower s0 := by simpa using hx2e
      refine hmemty items hit s0 hm ?_
      rw [← hns]
      exact hname
    · obtain ⟨t, rest, hxt, hdata⟩ := seg_pcie_mem r s3 h3 _ hx3
      have hnt : name = t := by simpa using hxt
      rw [← hnt] at hdata
      exact name_data_ne_pcie name (Or.inr hname) rest hdata
    · simp only [seg_cpu_tdp] at h4
      obtain ⟨n, hn⟩ := seg_numeric_mem _ get_tdp_category s4 h4 _ hx4
      have hnm : name = get_tdp_category n := by simpa using hn
      have hb : get_tdp_category n ∈ List.map Prod.fst TDP_CATEGORIES ++ ["extreme-tdp"] :=
        bucket_mem TDP_CATEGORIES "extreme-tdp" n
      rw [← hnm] at hb
      exact core_name_not_tdp name hname hb
    · rcases seg_igpu_mem r s5 h5 _ hx5 with he | he
      · have : name = "igpu" := by simpa using he
        exact (core_name_not_igpu name hname).1 this
      · have : name = "no-igpu" := by simpa using he
        exact (core_name_not_igpu name hname).2 this
    · rw [seg_cores_zero r s6 hcores h6] at hx6
      exact absurd hx6 (List.not_mem_nil _)
    · have := seg_tier_mem r s7 h7 _ hx7
      exact htier _ this rfl

/-- C10 counterexample: a GPU record with `tdp_watts = 0` whose
`performance_tier` field is literally "mid-tdp" makes `generate_tags`
return a list containing the TDP-category name "mid-tdp", so the claim
as stated (no TDP-category tag for any such record) fails. -/
theorem c10_counterexample :
    ∃ tags, generate_tags [("component_type", .str "GPU"), ("tdp_watts", .int 0),
        ("performance_tier", .str "mid-tdp")] = some tags ∧
      JValue.str "mid-tdp" ∈ tags ∧ "mid-tdp" ∈ TDP_TAG_NAMES :=
  ⟨[.str "mid-tdp"], by decide, by decide, by decide⟩

/-- C10 (amended): numeric attributes equal to zero are treated as
absent by the truthiness checks: a GPU record with `tdp_watts = 0` gets
no TDP-category tag and a CPU record with `cores = 0` gets no core-count
tag — provided the passthrough fields (`memory_type`,
`performance_tier`, and for CPUs `socket`) do not themselves carry such
a name (see the counterexample). -/
theorem c10_zero_numeric_treated_absent :
    (∀ (r : Record) (tags : List JValue) (name : String),
      r.lookup "component_type" = some (.str "GPU") →
      r.lookup "tdp_watts" = some (.int 0) →
      generate_tags r = some tags →
      name ∈ TDP_TAG_NAMES →
      (∀ s0, r.lookup "memory_type" = some (.str s0) → pyLower s0 ∉ TDP_TAG_NAMES) →
      (∀ v, r.lookup "performance_tier" = some v → v ≠ .str name) →
      JValue.str name ∉ tags) ∧
    (∀ (r : Record) (tags : List JValue) (name : String),
      r.lookup "component_type" = some (.str "CPU") →
      r.lookup "cores" = some (.int 0) →
      generate_tags r = some tags →
      name ∈ CORE_TAG_NAMES →
      (∀ s0, r.lookup "socket" = some (.str s0) → pyLower s0 ∉ CORE_TAG_NAMES) →
      (∀ items, iterItems (jgetD r "memory_type" (.list .nil)) = some items →
        ∀ s0, JValue.str s0 ∈ items → pyLower s0 ∉ CORE_TAG_NAMES) →
      (∀ v, r.lookup "performance_tier" = some v → v ≠ .str name) →
      JValue.str name ∉ tags) :=
  ⟨gpu_zero_tdp_no_tag, cpu_zero_cores_no_tag⟩

/-- C10 witness: instantiated on the records `{component_type: "GPU",
tdp_watts: 0}` (tag list is empty) and `{component_type: "CPU",
cores: 0}` (tag list is just `no-igpu`). -/
theorem c10_witness :
    (generate_tags [("component_type", .str "GPU"), ("tdp_watts", .int 0)] = some [] ∧
      JValue.str "low-tdp" ∉ ([] : List JValue)) ∧
    (generate_tags [("component_type", .str "CPU"), ("cores", .int 0)]
        = some [JValue.str "no-igpu"] ∧
      JValue.str "quad-core" ∉ [JValue.str "no-igpu"]) := by
  constructor
  · refine ⟨by decide, ?_⟩
    refine c10_zero_numeric_treated_absent.1
      [("component_type", .str "GPU"), ("tdp_watts", .int 0)] [] "low-tdp"
      (by decide) (by decide) (by decide) (by decide) ?_ ?_
    · intro s0 h
      have hn : List.lookup "memory_type"
          ([("component_type", JValue.str "GPU"), ("tdp_watts", JValue.int 0)] : Record)
          = none := by decide
      rw [hn] at h
      exact Option.noConfusion h
    · intro v h
      have hn : List.lookup "performance_tier"
          ([("component_type", JValue.str "GPU"), ("tdp_watts", JValue.int 0)] : Record)
          = none := by decide
      rw [hn] at h
      exact Option.noConfusion h
  · refine ⟨by decide, ?_⟩
    refine c10_zero_numeric_treated_absent.2
      [("component_type", .str "CPU"), ("cores", .int 0)] [JValue.str "no-igpu"] "quad-core"
      (by decide) (by decide) (by decide) (by decide) ?_ ?_ ?_
    · intro s0 h
      have hn : List.lookup "socket"
          ([("component_type", JValue.str "CPU"), ("cores", JValue.int 0)] : Record)
          = none := by decide
      rw [hn] at h
      exact Option.noConfusion h
    · intro items hit s0 hm
      have he : iterItems (jgetD ([("component_type", JValue.str "CPU"),
          ("cores", JValue.int 0)] : Record) "memory_type" (.list .nil)) = some [] := by decide
      rw [he] at hit
      obtain rfl : ([] : List JValue) = items := by simpa using hit
      exact absurd hm (List.not_mem_nil _)
    · intro v h
      have hn : List.lookup "performance_tier"
          ([("component_type", JValue.str "CPU"), ("cores", JValue.int 0)] : Record)
          = none := by decide
      rw [hn] at h
      exact Option.noConfusion h
